/-
Verification development for the nycdb AI-integration pipeline
(natural-language query -> structured query -> SQL -> statistics -> patterns
-> narrative). Each JavaScript source function used by a claim is embedded
as an executable Lean definition; JS numbers are modelled by Int/Rat, JS
division that can produce NaN by Option Rat, thrown exceptions by Except,
and JS objects by structures with Option fields for possibly-absent keys.
-/
import Mathlib

/-! ## JavaScript arithmetic helpers -/

/-- JS Math.round: round half up, i.e. floor of x + 1/2. -/
def jsRound (q : ℚ) : ℤ := ⌊q + 1/2⌋

/-- JS Number.prototype.toFixed(1) followed by parseFloat, on a non-negative
rational: round to one decimal place (half up).  The rounded value is what
the pattern detector compares against its thresholds. -/
def jsFixed1 (q : ℚ) : ℚ := (jsRound (q * 10) : ℚ) / 10

/-- JS division a / b where b may be zero.  In JS 0/0 is NaN (and n/0 is
Infinity); both are modelled as none, a present number as some. -/
def jsDivOpt (a b : ℚ) : Option ℚ := if b = 0 then none else some (a / b)

/-- JS `x || d` on an optional natural number (0 and undefined are falsy). -/
def jsOrNat (v : Option ℕ) (d : ℕ) : ℕ :=
  match v with
  | some n => if n = 0 then d else n
  | none => d

theorem jsRound_intCast (n : ℤ) : jsRound (n : ℚ) = n := by
  unfold jsRound
  rw [Int.floor_eq_iff]
  constructor <;> norm_num

/-! ## Risk scoring (data-transformation-service.js, also duplicated in
data-retrieval-service.js retrieveRiskAssessmentData) -/

/-- calculateBuildingAgeScore(yearBuilt): age risk score.  currentYear is the
value of new Date().getFullYear(), taken as a parameter. -/
def calculateBuildingAgeScore (currentYear yearBuilt : ℤ) : ℤ :=
  let age := currentYear - yearBuilt
  if age ≥ 100 then 100
  else if age ≤ 10 then 10
  else jsRound (((age : ℚ) - 10) * ((90 : ℚ) / 90) + 10)

/-- calculateViolationScore(violationCount). -/
def calculateViolationScore (violationCount : ℕ) : ℤ :=
  if violationCount = 0 then 0
  else if violationCount ≥ 20 then 100
  else jsRound ((violationCount : ℚ) * 5)

/-- riskScore = (ageScore + violationScore) / 2, JS real division. -/
def riskScore (currentYear yearBuilt : ℤ) (violations : ℕ) : ℚ :=
  ((calculateBuildingAgeScore currentYear yearBuilt : ℚ)
    + (calculateViolationScore violations : ℚ)) / 2

/-- getRiskLevel(score) from data-transformation-service.js. -/
def getRiskLevel (score : ℚ) : String :=
  if score ≥ 80 then "High"
  else if score ≥ 50 then "Medium"
  else if score ≥ 20 then "Low"
  else "Minimal"

/-! ### Reference definitions, written from the words of the spec
(for the refinement comparison of claim C1). -/

/-- Spec reference: ageScore = 100 if age >= 100, 10 if age <= 10,
else 10 + (age - 10). -/
def ageScoreSpec (age : ℤ) : ℤ :=
  if age ≥ 100 then 100 else if age ≤ 10 then 10 else 10 + (age - 10)

/-- Spec reference: violationScore = 0 if count = 0, else min(count*5, 100). -/
def violationScoreSpec (count : ℕ) : ℤ :=
  if count = 0 then 0 else min ((count : ℤ) * 5) 100

/-- Spec reference: riskScore = (ageScore + violationScore) / 2. -/
def riskScoreSpec (age : ℤ) (count : ℕ) : ℚ :=
  ((ageScoreSpec age + violationScoreSpec count : ℤ) : ℚ) / 2

/-- Spec reference: High at >= 80, Medium at >= 50, Low at >= 20, else
Minimal. -/
def riskLevelSpec (score : ℚ) : String :=
  if score ≥ 80 then "High"
  else if score ≥ 50 then "Medium"
  else if score ≥ 20 then "Low"
  else "Minimal"

theorem calculateBuildingAgeScore_eq_spec (currentYear yearBuilt : ℤ) :
    calculateBuildingAgeScore currentYear yearBuilt =
      ageScoreSpec (currentYear - yearBuilt) := by
  unfold calculateBuildingAgeScore ageScoreSpec
  set age := currentYear - yearBuilt with hage
  by_cases h1 : age ≥ 100
  · simp [h1]
  · by_cases h2 : age ≤ 10
    · simp [h1, h2]
    · simp only [h1, h2, if_false]
      have hq : ((age : ℚ) - 10) * ((90 : ℚ) / 90) + 10 = ((age : ℤ) : ℚ) := by
        norm_num
      rw [hq, jsRound_intCast]
      omega

theorem calculateViolationScore_eq_spec (count : ℕ) :
    calculateViolationScore count = violationScoreSpec count := by
  unfold calculateViolationScore violationScoreSpec
  by_cases h0 : count = 0
  · simp [h0]
  · by_cases h20 : count ≥ 20
    · have : min ((count : ℤ) * 5) 100 = 100 := by
        apply min_eq_right; omega
      simp [h0, h20, this]
    · have hq : ((count : ℚ) * 5) = (((count : ℤ) * 5 : ℤ) : ℚ) := by push_cast; ring
      have : min ((count : ℤ) * 5) 100 = (count : ℤ) * 5 := by
        apply min_eq_left; omega
      simp only [h0, h20, if_false, hq, jsRound_intCast, this]

/-- C1: For every building row the pipeline risk score equals the reference
definition (ageScore 100 at age >= 100, 10 at age <= 10, else 10 + (age-10);
violationScore 0 at count 0, else min(count*5, 100); riskScore their mean;
level bucketed High >= 80, Medium >= 50, Low >= 20, else Minimal), and the
two spot values hold: riskScore at age 5, violations 0 is 5, and at age 150,
violations 25 is 100. -/
theorem c1_risk_formula_matches_spec :
    (∀ (currentYear yearBuilt : ℤ) (violations : ℕ),
        riskScore currentYear yearBuilt violations =
          riskScoreSpec (currentYear - yearBuilt) violations
        ∧ getRiskLevel (riskScore currentYear yearBuilt violations) =
            riskLevelSpec (riskScoreSpec (currentYear - yearBuilt) violations))
    ∧ riskScore 2025 2020 0 = 5
    ∧ riskScore 2025 1875 25 = 100 := by
  refine ⟨fun currentYear yearBuilt violations => ?_,
    by norm_num [riskScore, calculateBuildingAgeScore, calculateViolationScore],
    by norm_num [riskScore, calculateBuildingAgeScore, calculateViolationScore]⟩
  have hs : riskScore currentYear yearBuilt violations =
      riskScoreSpec (currentYear - yearBuilt) violations := by
    unfold riskScore riskScoreSpec
    rw [calculateBuildingAgeScore_eq_spec, calculateViolationScore_eq_spec]
    push_cast
    ring
  exact ⟨hs, by rw [hs]; rfl⟩

/-! ## String helpers modelling JS string primitives -/

/-- Does the first list occur as a prefix of the second? -/
def charsStartWith : List Char → List Char → Bool
  | [], _ => true
  | _ :: _, [] => false
  | c :: cs, d :: ds => c == d && charsStartWith cs ds

/-- Does the first list occur as a contiguous sublist of the second?
Models JS String.prototype.includes. -/
def charsOccurIn (needle : List Char) : List Char → Bool
  | [] => needle.isEmpty
  | c :: cs => charsStartWith needle (c :: cs) || charsOccurIn needle cs

/-- JS hay.includes(needle). -/
def jsIncludes (hay needle : String) : Bool :=
  charsOccurIn needle.toList hay.toList

/-- The characters of a string, lowercased (JS s.toLowerCase(), done
characterwise so that the kernel can evaluate it). -/
def lowerChars (s : String) : List Char := s.toList.map Char.toLower

/-- JS hay.toLowerCase().includes(needle). -/
def jsLowerIncludes (hay needle : String) : Bool :=
  charsOccurIn needle.toList (lowerChars hay)

/-- JS s.charAt(0).toUpperCase() + s.slice(1). -/
def jsCapitalize (s : String) : String :=
  match s.toList with
  | [] => ""
  | c :: cs => String.mk (c.toUpper :: cs)

/-- A word character for the regex \b boundary: [A-Za-z0-9_]. -/
def isWordChar (c : Char) : Bool := c.isAlphanum || c == '_'

/-- Split a character list into maximal runs of word characters. -/
def splitWordRuns : List Char → List Char → List String
  | [], acc => if acc.isEmpty then [] else [String.mk acc.reverse]
  | c :: cs, acc =>
    if isWordChar c then splitWordRuns cs (c :: acc)
    else if acc.isEmpty then splitWordRuns cs []
    else String.mk acc.reverse :: splitWordRuns cs []

/-- JS s.match(/\b(these|those|them|it|this|that)\b/i) as a Bool test:
some maximal word run of s equals one of the pronouns, case-insensitively. -/
def hasReferentialPronoun (s : String) : Bool :=
  (splitWordRuns (lowerChars s) []).any
    (fun w => w ∈ ["these", "those", "them", "it", "this", "that"])

/-! ## Query Interpreter data model (nlp-service.js) -/

/-- A time period entity: either the raw extracted token or a resolved
start and end date pair. -/
inductive TimePeriod
  | raw (s : String)
  | range (startDate endDate : String)
deriving DecidableEq

/-- The entity map of a structured query.  A field is none when the JS
object lacks the key (undefined), some when present (possibly empty). -/
@[ext]
structure Entities where
  locations : Option (List String)
  buildingTypes : Option (List String)
  timePeriods : Option (List TimePeriod)
deriving DecidableEq

/-- The empty entity object. -/
def emptyEntities : Entities := ⟨none, none, none⟩

/-- A bound SQL value: a JS string, number, or array of strings. -/
inductive SqlValue
  | str (s : String)
  | num (n : ℕ)
  | listV (vs : List String)
deriving DecidableEq

/-- A filter of a structured query: table, column, operator, value. -/
structure QueryFilter where
  table : String
  column : String
  operator : String
  value : SqlValue
deriving DecidableEq

/-- The structured query produced by parseModelResponse and refined by the
rest of the interpreter.  queryType none models JS null. -/
@[ext]
structure StructuredQuery where
  queryType : Option String
  entities : Entities
  filters : List QueryFilter
  aggregations : List String
  sortOrder : Option String
  limit : ℕ
  originalQuery : Option String
deriving DecidableEq

/-- The JSON payload recovered from the Completion Service reply when the
regex extraction and JSON.parse both succeed; every field optional. -/
structure ModelPayload where
  queryType : Option String
  entities : Option Entities
  filters : Option (List QueryFilter)
  aggregations : Option (List String)
  sortOrder : Option String
  limit : Option ℕ
  originalQuery : Option String
deriving DecidableEq

/-- JS x || null on an optional string: the empty string is falsy. -/
def jsOrNullStr (v : Option String) : Option String :=
  match v with
  | some s => if s = "" then none else some s
  | none => none

/-- parseModelResponse(response): the extracted argument is some payload
when the JSON-substring regex matched and JSON.parse succeeded, none when
either step threw (the catch branch).  On failure the source returns the
minimal structure whose originalQuery is the raw model response. -/
def parseModelResponse (response : String) (extracted : Option ModelPayload) :
    StructuredQuery :=
  match extracted with
  | some p =>
    { queryType := jsOrNullStr p.queryType
      entities := p.entities.getD emptyEntities
      filters := p.filters.getD []
      aggregations := p.aggregations.getD []
      sortOrder := jsOrNullStr p.sortOrder
      limit := jsOrNat p.limit 100
      originalQuery := p.originalQuery }
  | none =>
    { queryType := none
      entities := emptyEntities
      filters := []
      aggregations := []
      sortOrder := none
      limit := 100
      originalQuery := some response }

/-- NYC_BOROUGHS from nlp-service.js. -/
def NYC_BOROUGHS : List String :=
  ["manhattan", "brooklyn", "queens", "bronx", "staten island"]

/-- The location normalization step of validateAndNormalizeQuery: find the
first borough contained in the lowercased location and return it with its
first character uppercased, else pass the location through unchanged. -/
def normalizeLocation (location : String) : String :=
  match NYC_BOROUGHS.find? (fun borough => jsLowerIncludes location borough) with
  | some borough => jsCapitalize borough
  | none => location

/-- The time period normalization step of validateAndNormalizeQuery.  The
source lowercases the entry, so a raw token is resolved; a range object is
returned unchanged (the source would throw a TypeError on one, but model
replies only ever carry string tokens). -/
def normalizeTimePeriod (currentYear : ℤ) : TimePeriod → TimePeriod
  | .raw s =>
    if jsLowerIncludes s "last year" then
      .range (toString (currentYear - 1) ++ "-01-01")
             (toString (currentYear - 1) ++ "-12-31")
    else if jsLowerIncludes s "past five years" then
      .range (toString (currentYear - 5) ++ "-01-01")
             (toString currentYear ++ "-12-31")
    else .raw s
  | .range a b => .range a b

/-- validateAndNormalizeQuery(query): normalize locations and time periods
when those entity lists are present. -/
def validateAndNormalizeQuery (currentYear : ℤ) (q : StructuredQuery) :
    StructuredQuery :=
  { q with entities :=
      { q.entities with
        locations := q.entities.locations.map (List.map normalizeLocation)
        timePeriods := q.entities.timePeriods.map
          (List.map (normalizeTimePeriod currentYear)) } }

/-- C7 counterexample: the extracted location "Staten Island" contains a
borough name case-insensitively, but the interpreter normalizes it to
"Staten island" (only the first character is uppercased), which is not one
of the five canonical borough names; so the claim that every matching
location is normalized to a canonical name is false. -/
theorem c7_counterexample_staten_island :
    jsLowerIncludes "Staten Island" "staten island" = true
    ∧ normalizeLocation "Staten Island" = "Staten island"
    ∧ ("Staten island" : String) ∉
        ["Manhattan", "Brooklyn", "Queens", "Bronx", "Staten Island"] := by
  refine ⟨by decide, ?_, by decide⟩
  decide

/-- C7 (amended): a location containing one of the five borough names
case-insensitively is normalized to the matched borough name with only its
first character uppercased (one of Manhattan, Brooklyn, Queens, Bronx,
Staten island -- lowercase island), and a location matching no borough
passes through unchanged. -/
theorem c7_borough_normalization (location : String) :
    ((∃ b ∈ NYC_BOROUGHS, jsLowerIncludes location b = true) →
      normalizeLocation location ∈
        ["Manhattan", "Brooklyn", "Queens", "Bronx", "Staten island"])
    ∧ ((∀ b ∈ NYC_BOROUGHS, jsLowerIncludes location b = false) →
      normalizeLocation location = location) := by
  constructor
  · rintro ⟨b, hb, hinc⟩
    unfold normalizeLocation
    cases hfind : NYC_BOROUGHS.find? (fun borough => jsLowerIncludes location borough) with
    | none =>
      exact absurd hinc (by simpa using (List.find?_eq_none.mp hfind) b hb)
    | some b2 =>
      have hmem : b2 ∈ NYC_BOROUGHS := List.mem_of_find?_eq_some hfind
      show jsCapitalize b2 ∈ _
      fin_cases hmem <;> decide
  · intro hall
    unfold normalizeLocation
    cases hfind : NYC_BOROUGHS.find? (fun borough => jsLowerIncludes location borough) with
    | none => rfl
    | some b2 =>
      have hp := List.find?_some hfind
      have hmem : b2 ∈ NYC_BOROUGHS := List.mem_of_find?_eq_some hfind
      exact absurd (by simpa using hp) (by simp [hall b2 hmem])

/-- C7 witness: the amended normalization theorem applied at the concrete
locations "Downtown Brooklyn" (matching) and "Hoboken" (matching no
borough). -/
theorem c7_borough_normalization_witness :
    normalizeLocation "Downtown Brooklyn" ∈
        ["Manhattan", "Brooklyn", "Queens", "Bronx", "Staten island"]
    ∧ normalizeLocation "Hoboken" = "Hoboken" :=
  ⟨(c7_borough_normalization "Downtown Brooklyn").1
      ⟨"brooklyn", by decide, by decide⟩,
    (c7_borough_normalization "Hoboken").2 (by decide)⟩

/-! ## Conversation context (interactive-refinement-service.js) -/

/-- One entry of ConversationContext.previousQueries, as pushed by
addQuery. -/
structure PrevQuery where
  originalQuery : Option String
  queryType : Option String
  entities : Entities
  timestamp : String
  responseId : Option String
deriving DecidableEq

/-- The ConversationContext class: conversation history and state. -/
structure ConversationContext where
  previousQueries : List PrevQuery
  currentTopic : Option String
  currentEntities : Entities
  conversationId : String
  startTime : String
  messageCount : ℕ
deriving DecidableEq

/-- The ConversationContext constructor (conversationId and start time are
produced externally: generateConversationId and new Date). -/
def ConversationContext.fresh (conversationId startTime : String) :
    ConversationContext :=
  { previousQueries := []
    currentTopic := none
    currentEntities := emptyEntities
    conversationId := conversationId
    startTime := startTime
    messageCount := 0 }

/-- JS object spread merge of two entity objects: a field of the second
overrides when present, else the first is kept. -/
def mergeEntities (a b : Entities) : Entities :=
  { locations := match b.locations with | some l => some l | none => a.locations
    buildingTypes :=
      match b.buildingTypes with | some l => some l | none => a.buildingTypes
    timePeriods :=
      match b.timePeriods with | some l => some l | none => a.timePeriods }

/-- ConversationContext.addQuery(structuredQuery, response): push one
history entry, update topic and entities, increment messageCount. -/
def ConversationContext.addQuery (ctx : ConversationContext)
    (sq : StructuredQuery) (responseId : Option String) (now : String) :
    ConversationContext :=
  { ctx with
    previousQueries := ctx.previousQueries ++
      [{ originalQuery := sq.originalQuery
         queryType := sq.queryType
         entities := sq.entities
         timestamp := now
         responseId := responseId }]
    currentTopic :=
      match sq.queryType with | some t => some t | none => ctx.currentTopic
    currentEntities := mergeEntities ctx.currentEntities sq.entities
    messageCount := ctx.messageCount + 1 }

/-- ConversationContext.getLastQuery(). -/
def ConversationContext.getLastQuery (ctx : ConversationContext) :
    Option PrevQuery :=
  ctx.previousQueries.getLast?

/-- Is this optional list absent or empty (the follow-up copy condition
for an entity list)? -/
def entityListMissing (o : Option (List String)) : Bool :=
  match o with
  | none => true
  | some l => l.isEmpty

/-- Is this optional time period list absent or empty? -/
def periodListMissing (o : Option (List TimePeriod)) : Bool :=
  match o with
  | none => true
  | some l => l.isEmpty

/-- ConversationContext.isFollowUpQuery(structuredQuery).  The first
check returns true early; past it the source unconditionally evaluates
structuredQuery.originalQuery.match(...), which throws a TypeError when
originalQuery is absent - modelled as Except.error. -/
def ConversationContext.isFollowUpQueryE (ctx : ConversationContext)
    (sq : StructuredQuery) : Except Unit Bool :=
  match ctx.getLastQuery with
  | none => Except.ok false
  | some last =>
    if sq.queryType.isNone && last.queryType.isSome then Except.ok true
    else
      match sq.originalQuery with
      | none => Except.error ()
      | some s =>
        if hasReferentialPronoun s then Except.ok true
        else
          Except.ok
            (last.entities.locations.isSome
              && entityListMissing sq.entities.locations)

/-- The record update of processFollowUpQuery on a follow-up: copy the
query type and the missing entity lists forward from the last history
entry; populated fields of the new query are left alone. -/
def followUpMerge (sq : StructuredQuery) (last : PrevQuery) :
    StructuredQuery :=
  { sq with
    queryType :=
      match sq.queryType, last.queryType with
      | none, some t => some t
      | t, _ => t
    entities :=
      { locations :=
          if entityListMissing sq.entities.locations
              && last.entities.locations.isSome then
            last.entities.locations
          else sq.entities.locations
        buildingTypes :=
          if entityListMissing sq.entities.buildingTypes
              && last.entities.buildingTypes.isSome then
            last.entities.buildingTypes
          else sq.entities.buildingTypes
        timePeriods :=
          if periodListMissing sq.entities.timePeriods
              && last.entities.timePeriods.isSome then
            last.entities.timePeriods
          else sq.entities.timePeriods } }

/-- processFollowUpQuery(structuredQuery, conversationContext): return the
query unchanged when it is not classified as a follow-up, else merge the
last history entry into it; a TypeError thrown inside isFollowUpQuery
propagates. -/
def processFollowUpQueryE (sq : StructuredQuery) (ctx : ConversationContext) :
    Except Unit StructuredQuery :=
  match ctx.isFollowUpQueryE sq with
  | Except.error e => Except.error e
  | Except.ok false => Except.ok sq
  | Except.ok true =>
    match ctx.getLastQuery with
    | none => Except.ok sq
    | some last => Except.ok (followUpMerge sq last)

/-- incorporateConversationContext(query, context) from nlp-service.js.
Unlike processFollowUpQuery, the copy condition checks only for absence
(a present empty array is truthy in JS and blocks the copy). -/
def incorporateConversationContext (sq : StructuredQuery)
    (context : Option ConversationContext) : StructuredQuery :=
  match context with
  | none => sq
  | some ctx =>
    match ctx.previousQueries.getLast? with
    | none => sq
    | some prev =>
      { sq with
        queryType :=
          match sq.queryType, prev.queryType with
          | none, some t => some t
          | t, _ => t
        entities :=
          { sq.entities with
            locations :=
              match sq.entities.locations, prev.entities.locations with
              | none, some l => some l
              | l, _ => l
            buildingTypes :=
              match sq.entities.buildingTypes, prev.entities.buildingTypes with
              | none, some l => some l
              | l, _ => l } }

/-- processQuery(query, conversationContext) from nlp-service.js, with the
Completion Service reply and the outcome of JSON extraction as explicit
inputs: parse the model response, validate and normalize, then incorporate
the conversation context. -/
def processQuery (currentYear : ℤ) (query completionText : String)
    (extracted : Option ModelPayload) (context : Option ConversationContext) :
    StructuredQuery :=
  let _ := query
  incorporateConversationContext
    (validateAndNormalizeQuery currentYear
      (parseModelResponse completionText extracted))
    context

/-- Is this optional list present and nonempty (a populated field in the
sense of claim C5)? -/
def listPopulated {α : Type} (o : Option (List α)) : Bool :=
  match o with
  | some (_ :: _) => true
  | _ => false

/-- All four follow-up-relevant fields of a structured query are
populated: intent, locations, building types, time periods. -/
def fullyPopulated (q : StructuredQuery) : Bool :=
  q.queryType.isSome
    && listPopulated q.entities.locations
    && listPopulated q.entities.buildingTypes
    && listPopulated q.entities.timePeriods


/-- C5 (amended): follow-up resolution copies fields only old to new and
never overwrites a field the new query already populated, in both
routines; processFollowUpQuery returns normally whenever the query text is
present, and on a fully populated query whose text is present both
routines leave every field unchanged under any session.  (A query without
its originalQuery text makes processFollowUpQuery throw a TypeError once a
previous turn exists - see the counterexample - while
incorporateConversationContext never throws.) -/
theorem c5_follow_up_no_overwrite_and_idempotent :
    (∀ (q : StructuredQuery) (ctx : ConversationContext),
        (q.queryType.isSome = true →
          (incorporateConversationContext q (some ctx)).queryType = q.queryType)
        ∧ (q.entities.locations.isSome = true →
            (incorporateConversationContext q (some ctx)).entities.locations
              = q.entities.locations)
        ∧ (q.entities.buildingTypes.isSome = true →
            (incorporateConversationContext q (some ctx)).entities.buildingTypes
              = q.entities.buildingTypes)
        ∧ (incorporateConversationContext q (some ctx)).entities.timePeriods
            = q.entities.timePeriods)
    ∧ (∀ (q q2 : StructuredQuery) (ctx : ConversationContext),
        processFollowUpQueryE q ctx = Except.ok q2 →
          (q.queryType.isSome = true → q2.queryType = q.queryType)
          ∧ (listPopulated q.entities.locations = true →
              q2.entities.locations = q.entities.locations)
          ∧ (listPopulated q.entities.buildingTypes = true →
              q2.entities.buildingTypes = q.entities.buildingTypes)
          ∧ (listPopulated q.entities.timePeriods = true →
              q2.entities.timePeriods = q.entities.timePeriods))
    ∧ (∀ (q : StructuredQuery) (ctx : ConversationContext),
        q.originalQuery.isSome = true →
          ∃ q2, processFollowUpQueryE q ctx = Except.ok q2)
    ∧ (∀ (q : StructuredQuery) (ctx : ConversationContext),
        fullyPopulated q = true →
          incorporateConversationContext q (some ctx) = q
          ∧ (q.originalQuery.isSome = true →
              processFollowUpQueryE q ctx = Except.ok q)) := by
  have hinc : ∀ (q : StructuredQuery) (ctx : ConversationContext),
      (q.queryType.isSome = true →
        (incorporateConversationContext q (some ctx)).queryType = q.queryType)
      ∧ (q.entities.locations.isSome = true →
        (incorporateConversationContext q (some ctx)).entities.locations
          = q.entities.locations)
      ∧ (q.entities.buildingTypes.isSome = true →
        (incorporateConversationContext q (some ctx)).entities.buildingTypes
          = q.entities.buildingTypes)
      ∧ (incorporateConversationContext q (some ctx)).entities.timePeriods
          = q.entities.timePeriods := by
    intro q ctx
    unfold incorporateConversationContext
    cases hlast : ctx.previousQueries.getLast? with
    | none => simp [hlast]
    | some prev =>
      simp only [hlast]
      refine ⟨?_, ?_, ?_, by trivial⟩
      · intro hq
        cases hqt : q.queryType with
        | none => simp [hqt] at hq
        | some t => simp [hqt]
      · intro hl
        cases hloc : q.entities.locations with
        | none => simp [hloc] at hl
        | some l => simp [hloc]
      · intro hb
        cases hbt : q.entities.buildingTypes with
        | none => simp [hbt] at hb
        | some l => simp [hbt]
  have hmerge : ∀ (q : StructuredQuery) (last : PrevQuery),
      (q.queryType.isSome = true →
        (followUpMerge q last).queryType = q.queryType)
      ∧ (listPopulated q.entities.locations = true →
        (followUpMerge q last).entities.locations = q.entities.locations)
      ∧ (listPopulated q.entities.buildingTypes = true →
        (followUpMerge q last).entities.buildingTypes
          = q.entities.buildingTypes)
      ∧ (listPopulated q.entities.timePeriods = true →
        (followUpMerge q last).entities.timePeriods
          = q.entities.timePeriods) := by
    intro q last
    unfold followUpMerge
    refine ⟨?_, ?_, ?_, ?_⟩
    · intro hq
      cases hqt : q.queryType with
      | none => simp [hqt] at hq
      | some t => simp [hqt]
    · intro hl
      cases hloc : q.entities.locations with
      | none => simp [listPopulated, hloc] at hl
      | some l =>
        cases l with
        | nil => simp [listPopulated, hloc] at hl
        | cons x xs => simp [hloc, entityListMissing]
    · intro hb
      cases hbt : q.entities.buildingTypes with
      | none => simp [listPopulated, hbt] at hb
      | some l =>
        cases l with
        | nil => simp [listPopulated, hbt] at hb
        | cons x xs => simp [hbt, entityListMissing]
    · intro ht
      cases htp : q.entities.timePeriods with
      | none => simp [listPopulated, htp] at ht
      | some l =>
        cases l with
        | nil => simp [listPopulated, htp] at ht
        | cons x xs => simp [htp, periodListMissing]
  have hok : ∀ (q : StructuredQuery) (ctx : ConversationContext)
      (q2 : StructuredQuery),
      processFollowUpQueryE q ctx = Except.ok q2 →
      q2 = q ∨ ∃ last, ctx.getLastQuery = some last
        ∧ q2 = followUpMerge q last := by
    intro q ctx q2 h
    unfold processFollowUpQueryE at h
    cases hE : ctx.isFollowUpQueryE q with
    | error e => rw [hE] at h; exact absurd h (by simp)
    | ok b =>
      rw [hE] at h
      cases b with
      | false =>
        simp only [Except.ok.injEq] at h
        exact Or.inl h.symm
      | true =>
        cases hlast : ctx.getLastQuery with
        | none =>
          rw [hlast] at h
          simp only [Except.ok.injEq] at h
          exact Or.inl h.symm
        | some last =>
          rw [hlast] at h
          simp only [Except.ok.injEq] at h
          exact Or.inr ⟨last, rfl, h.symm⟩
  have hnothrow : ∀ (q : StructuredQuery) (ctx : ConversationContext),
      q.originalQuery.isSome = true →
      ∃ q2, processFollowUpQueryE q ctx = Except.ok q2 := by
    intro q ctx htext
    have hEok : ∃ b, ctx.isFollowUpQueryE q = Except.ok b := by
      unfold ConversationContext.isFollowUpQueryE
      cases hlast : ctx.getLastQuery with
      | none => exact ⟨false, rfl⟩
      | some last =>
        by_cases hc : (q.queryType.isNone && last.queryType.isSome) = true
        · exact ⟨true, by simp [hc]⟩
        · cases hoq : q.originalQuery with
          | none => rw [hoq] at htext; simp at htext
          | some s =>
            by_cases hp : hasReferentialPronoun s = true
            · exact ⟨true, by simp [hc, hoq, hp]⟩
            · exact ⟨last.entities.locations.isSome
                  && entityListMissing q.entities.locations,
                by simp [hc, hoq, hp]⟩
    obtain ⟨b, hb⟩ := hEok
    unfold processFollowUpQueryE
    rw [hb]
    cases b with
    | false => exact ⟨q, rfl⟩
    | true =>
      cases hlast : ctx.getLastQuery with
      | none => exact ⟨q, by simp [hlast]⟩
      | some last => exact ⟨followUpMerge q last, by simp [hlast]⟩
  refine ⟨hinc, fun q q2 ctx h => ?_, hnothrow, fun q ctx hfull => ?_⟩
  · rcases hok q ctx q2 h with heq | ⟨last, -, heq⟩
    · subst heq
      exact ⟨fun _ => rfl, fun _ => rfl, fun _ => rfl, fun _ => rfl⟩
    · subst heq
      exact hmerge q last
  · simp only [fullyPopulated, Bool.and_eq_true] at hfull
    obtain ⟨⟨⟨hq, hl⟩, hb⟩, ht⟩ := hfull
    have h1 := hinc q ctx
    have hlp : q.entities.locations.isSome = true := by
      cases hloc : q.entities.locations with
      | none => simp [listPopulated, hloc] at hl
      | some l => rfl
    have hbp : q.entities.buildingTypes.isSome = true := by
      cases hbt : q.entities.buildingTypes with
      | none => simp [listPopulated, hbt] at hb
      | some l => rfl
    constructor
    · apply StructuredQuery.ext
      · exact h1.1 hq
      · apply Entities.ext
        · exact h1.2.1 hlp
        · exact h1.2.2.1 hbp
        · exact h1.2.2.2
      all_goals
        unfold incorporateConversationContext
        cases hlast : ctx.previousQueries.getLast? <;> simp [hlast]
    · intro htext
      have hmq : ∀ last : PrevQuery, followUpMerge q last = q := by
        intro last
        apply StructuredQuery.ext
        · exact (hmerge q last).1 hq
        · apply Entities.ext
          · exact (hmerge q last).2.1 hl
          · exact (hmerge q last).2.2.1 hb
          · exact (hmerge q last).2.2.2 ht
        all_goals rfl
      obtain ⟨q2, hq2⟩ := hnothrow q ctx htext
      rcases hok q ctx q2 hq2 with heq | ⟨last, -, heq⟩
      · rw [heq] at hq2
        exact hq2
      · rw [heq, hmq last] at hq2
        exact hq2

/-- A concrete fully populated structured query, for witnesses. -/
def demoStructuredQuery : StructuredQuery :=
  { queryType := some "risk_assessment"
    entities :=
      { locations := some ["Brooklyn"]
        buildingTypes := some ["residential"]
        timePeriods := some [TimePeriod.raw "last year"] }
    filters := []
    aggregations := []
    sortOrder := none
    limit := 100
    originalQuery := some "Show me those buildings in Brooklyn" }

/-- A concrete conversation context holding one previous turn, for
witnesses. -/
def demoContext : ConversationContext :=
  (ConversationContext.fresh "conv1" "t0").addQuery
    { queryType := some "violation_search"
      entities :=
        { locations := some ["Queens"], buildingTypes := none, timePeriods := none }
      filters := []
      aggregations := []
      sortOrder := none
      limit := 100
      originalQuery := some "violations in Queens" } none "t1"

/-- A fully populated structured query whose originalQuery text is absent,
as the success path of parseModelResponse can produce. -/
def noTextQuery : StructuredQuery :=
  { demoStructuredQuery with originalQuery := none }

/-- C5 counterexample: follow-up resolution applied with a one-turn
session to a fully populated query whose originalQuery text is absent does
not leave the query unchanged - processFollowUpQuery throws a TypeError
(the pronoun test dereferences originalQuery unconditionally once the
intent is populated), so the claim as stated fails on the code. -/
theorem c5_counterexample_missing_text_throws :
    fullyPopulated noTextQuery = true
    ∧ processFollowUpQueryE noTextQuery demoContext = Except.error () := by
  exact ⟨by decide, rfl⟩

/-- C5 witness: both resolution routines applied to a concrete fully
populated query (with its text present) and a concrete one-turn session
leave the query unchanged. -/
theorem c5_follow_up_witness :
    fullyPopulated demoStructuredQuery = true
    ∧ incorporateConversationContext demoStructuredQuery (some demoContext)
        = demoStructuredQuery
    ∧ processFollowUpQueryE demoStructuredQuery demoContext
        = Except.ok demoStructuredQuery :=
  ⟨by decide,
    (c5_follow_up_no_overwrite_and_idempotent.2.2.2 demoStructuredQuery
      demoContext (by decide)).1,
    (c5_follow_up_no_overwrite_and_idempotent.2.2.2 demoStructuredQuery
      demoContext (by decide)).2 (by decide)⟩

/-- C10: messageCount always equals the length of previousQueries: it is 0
on construction, addQuery appends exactly one history entry while
incrementing messageCount by one, and the equality holds after any
sequence of addQuery calls starting from a fresh context (the remaining
operations of the class only read the state). -/
theorem c10_message_count_invariant :
    (∀ cid ts, (ConversationContext.fresh cid ts).messageCount
        = (ConversationContext.fresh cid ts).previousQueries.length)
    ∧ (∀ (ctx : ConversationContext) (sq : StructuredQuery)
          (rid : Option String) (now : String),
        ctx.messageCount = ctx.previousQueries.length →
          (ctx.addQuery sq rid now).previousQueries.length
              = ctx.previousQueries.length + 1
          ∧ (ctx.addQuery sq rid now).messageCount
              = (ctx.addQuery sq rid now).previousQueries.length)
    ∧ (∀ (cid ts : String) (ops : List (StructuredQuery × Option String × String)),
        (ops.foldl (fun c o => c.addQuery o.1 o.2.1 o.2.2)
            (ConversationContext.fresh cid ts)).messageCount
          = (ops.foldl (fun c o => c.addQuery o.1 o.2.1 o.2.2)
              (ConversationContext.fresh cid ts)).previousQueries.length) := by
  refine ⟨fun cid ts => rfl, fun ctx sq rid now h => ?_, fun cid ts ops => ?_⟩
  · constructor
    · simp [ConversationContext.addQuery]
    · simp [ConversationContext.addQuery, h]
  · suffices hgen : ∀ (c : ConversationContext),
        c.messageCount = c.previousQueries.length →
        (ops.foldl (fun c o => c.addQuery o.1 o.2.1 o.2.2) c).messageCount
          = (ops.foldl (fun c o => c.addQuery o.1 o.2.1 o.2.2) c).previousQueries.length by
      exact hgen _ rfl
    induction ops with
    | nil => intro c h; exact h
    | cons o rest ih =>
      intro c h
      exact ih _ (by simp [ConversationContext.addQuery, h])

/-- C10 witness: the invariant preservation applied to a concrete context
and query. -/
theorem c10_message_count_witness :
    ((ConversationContext.fresh "conv" "t0").addQuery demoStructuredQuery
        none "t1").messageCount
      = ((ConversationContext.fresh "conv" "t0").addQuery demoStructuredQuery
          none "t1").previousQueries.length :=
  (c10_message_count_invariant.2.1 (ConversationContext.fresh "conv" "t0")
    demoStructuredQuery none "t1" (by rfl)).2

/-- C4 (code bug): when the Completion Service reply yields no parsable
payload, the interpreter does fail soft with queryType null and empty
entities, but the originalQuery field of the returned structured query
holds the raw Completion Service reply, not the verbatim user query (the
user query never reaches parseModelResponse), contradicting the claim and
the expectation result.originalQuery = query of the nlp-service test
suite. -/
theorem c4_parse_failure_keeps_reply_not_query :
    (∀ (y : ℤ) (query reply : String),
        (processQuery y query reply none none).originalQuery = some reply)
    ∧ processQuery 2025 "Show me building data"
        "I am sorry, I cannot produce structured output." none none
      = { queryType := none
          entities := emptyEntities
          filters := []
          aggregations := []
          sortOrder := none
          limit := 100
          originalQuery := some "I am sorry, I cannot produce structured output." }
    ∧ ("I am sorry, I cannot produce structured output." : String)
        ≠ "Show me building data" := by
  refine ⟨fun y query reply => rfl, rfl, by decide⟩

/-! ## Statistical analyzer, risk routines (data-analysis-service.js inside
interactive-refinement-service.js, and ai-analysis-service.js) -/

/-- A row of the risk-assessment result set after transformation. -/
structure RiskRow where
  risk_level : Option String
  risk_score : ℚ
  borough : Option String
  yearbuilt : Option ℤ
  bldgclass : Option String
deriving DecidableEq

/-- Stable insertion of an element into a list sorted descending by key
(JS Array.prototype.sort with comparator (a, b) => key b - key a). -/
def insertDescBy {α : Type} (key : α → ℚ) (x : α) : List α → List α
  | [] => [x]
  | y :: ys => if key x > key y then x :: y :: ys else y :: insertDescBy key x ys

/-- Stable sort of a list descending by a rational key. -/
def sortDescBy {α : Type} (key : α → ℚ) : List α → List α
  | [] => []
  | x :: xs => insertDescBy key x (sortDescBy key xs)

/-- Count of rows carrying a given risk level (the source increments
riskLevelCounts[building.risk_level] for each row whose risk_level is
truthy; pipeline rows only ever carry the four known levels). -/
def countLevel (data : List RiskRow) (lvl : String) : ℕ :=
  (data.filter (fun b => b.risk_level == some lvl)).length

/-- The percentage computation ((count / data.length) * 100).toFixed(1) of
both analyzers: on an empty row set the division is 0/0 and the formatted
field is the string "NaN", modelled as none. -/
def pctOfCount (count total : ℕ) : Option ℚ :=
  if total = 0 then none else some (jsFixed1 ((count : ℚ) / (total : ℚ) * 100))

/-- Per-level building counts of the data-analysis-service risk routine. -/
structure RiskLevelCounts where
  high : ℕ
  medium : ℕ
  low : ℕ
  minimal : ℕ
deriving DecidableEq

/-- Per-level percentage fields; none models the JS string "NaN". -/
structure RiskLevelPercentages where
  high : Option ℚ
  medium : Option ℚ
  low : Option ℚ
  minimal : Option ℚ
deriving DecidableEq

/-- riskStats of the data-analysis-service risk routine. -/
structure RiskStatsDA where
  riskLevelCounts : RiskLevelCounts
  totalBuildings : ℕ
  riskLevelPercentages : RiskLevelPercentages
deriving DecidableEq

/-- Result of the data-analysis-service risk routine (the common-factor
analysis over the high-risk subgroup is embedded separately at tally level
for the pattern-detector claims). -/
structure RiskAnalysisDA where
  riskStats : RiskStatsDA
  topRiskBuildings : List RiskRow
  riskDistribution : List (String × ℕ)
deriving DecidableEq

/-- analyzeRiskData(retrievedData, structuredQuery) of
data-analysis-service.js. -/
def analyzeRiskDataDA (data : List RiskRow) : RiskAnalysisDA :=
  let counts : RiskLevelCounts :=
    ⟨countLevel data "High", countLevel data "Medium",
     countLevel data "Low", countLevel data "Minimal"⟩
  { riskStats :=
      { riskLevelCounts := counts
        totalBuildings := data.length
        riskLevelPercentages :=
          ⟨pctOfCount counts.high data.length,
           pctOfCount counts.medium data.length,
           pctOfCount counts.low data.length,
           pctOfCount counts.minimal data.length⟩ }
    topRiskBuildings :=
      sortDescBy (fun b => b.risk_score)
        (data.filter (fun b => b.risk_level == some "High"))
    riskDistribution :=
      [("High", counts.high), ("Medium", counts.medium),
       ("Low", counts.low), ("Minimal", counts.minimal)] }

/-- riskStats of the ai-analysis-service risk routine; the percentage and
average fields are none (NaN) when the row set is empty. -/
structure RiskStatsAI where
  totalBuildings : ℕ
  highRiskCount : ℕ
  highRiskPercentage : Option ℚ
  mediumRiskCount : ℕ
  mediumRiskPercentage : Option ℚ
  averageRiskScore : Option ℚ
deriving DecidableEq

/-- Result of the ai-analysis-service risk routine. -/
structure RiskAnalysisAI where
  riskStats : RiskStatsAI
  topRiskBuildings : List RiskRow
  riskDistribution : List (String × ℕ)
deriving DecidableEq

/-- analyzeRiskData(structuredQuery, retrievedData) of
ai-analysis-service.js. -/
def analyzeRiskDataAI (data : List RiskRow) : RiskAnalysisAI :=
  let high := data.filter (fun b => b.risk_level == some "High")
  let medium := data.filter (fun b => b.risk_level == some "Medium")
  let low := data.filter (fun b => b.risk_level == some "Low")
  let minimal := data.filter (fun b => b.risk_level == some "Minimal")
  { riskStats :=
      { totalBuildings := data.length
        highRiskCount := high.length
        highRiskPercentage := pctOfCount high.length data.length
        mediumRiskCount := medium.length
        mediumRiskPercentage := pctOfCount medium.length data.length
        averageRiskScore :=
          jsDivOpt ((data.map (fun b => b.risk_score)).sum) (data.length : ℚ) }
    topRiskBuildings := high.take 10
    riskDistribution :=
      [("High", high.length), ("Medium", medium.length),
       ("Low", low.length), ("Minimal", minimal.length)] }

/-- JS `x || d` on an optional string (the empty string is falsy). -/
def jsOrStr (o : Option String) (d : String) : String :=
  match o with
  | some s => if s = "" then d else s
  | none => d

/-- One step of a JS object used as a counter: bump the count of an
existing key or append the key with count 1 (insertion order kept). -/
def bumpKey (acc : List (String × ℕ)) (k : String) : List (String × ℕ) :=
  if acc.any (fun p => p.1 == k) then
    acc.map (fun p => if p.1 == k then (p.1, p.2 + 1) else p)
  else acc ++ [(k, 1)]

/-- Tally a list of keys in first-seen order (Object.entries of a JS
counting object). -/
def tallyBy (keys : List String) : List (String × ℕ) :=
  keys.foldl bumpKey []

/-! ### Generic numeric summary (calculateBasicStatistics of
data-analysis-service.js) and the generic default routine
(generateGeneralInsights of ai-analysis-service.js), over dynamically
typed rows. -/

/-- A JS row value: a number, a string, or null. -/
inductive JsVal
  | num (q : ℚ)
  | str (s : String)
  | null
deriving DecidableEq

/-- A dynamically typed row: field names with their values, in key
order. -/
abbrev JsRow := List (String × JsVal)

/-- JS row[field]: none when the key is absent (undefined). -/
def lookupField (r : JsRow) (f : String) : Option JsVal :=
  (r.find? (fun p => p.1 == f)).map Prod.snd

/-- Per-field numeric summary of calculateBasicStatistics.  The source
stores stdDev = Math.sqrt(avgSquaredDiff), a float; the square is kept so
the definition stays inside the rationals. -/
structure NumFieldStats where
  count : ℕ
  sum : ℚ
  avg : ℚ
  min : ℚ
  max : ℚ
  avgSquaredDiff : ℚ
deriving DecidableEq

/-- The basicStats object. -/
structure BasicStats where
  recordCount : ℕ
  fields : List String
  numericalStats : List (String × NumFieldStats)
deriving DecidableEq

/-- The numeric values of a field across the rows (the source filters
val !== null && !isNaN(val); rows are assumed homogeneous on a field whose
first value is a number, so non-numbers are dropped). -/
def numValuesOf (rows : List JsRow) (f : String) : List ℚ :=
  rows.filterMap (fun r =>
    match lookupField r f with
    | some (JsVal.num q) => some q
    | _ => none)

/-- calculateBasicStatistics(retrievedData) of data-analysis-service.js:
record count, field list from the first row, and a two-pass numeric
summary per number-typed field with at least one value. -/
def calculateBasicStatistics (rows : List JsRow) : BasicStats :=
  match rows with
  | [] => ⟨0, [], []⟩
  | first :: _ =>
    let fields := first.map Prod.fst
    let stats := fields.filterMap (fun f =>
      match lookupField first f with
      | some (JsVal.num _) =>
        (match numValuesOf rows f with
         | [] => none
         | v :: vs =>
           let values := v :: vs
           let sum := values.sum
           let avg := sum / (values.length : ℚ)
           let asd := ((values.map (fun x => (x - avg) * (x - avg))).sum)
             / (values.length : ℚ)
           some (f, ⟨values.length, sum, avg, vs.foldl min v, vs.foldl max v, asd⟩))
      | _ => none)
    ⟨rows.length, fields, stats⟩

/-- The per-field min/max/avg triple of generateGeneralInsights; none
models the NaN stats produced when some row lacks a number at the
field. -/
def generalNumStats (data : List JsRow) (f : String) : Option (ℚ × ℚ × ℚ) :=
  match data.mapM (fun r =>
      match lookupField r f with
      | some (JsVal.num q) => some q
      | _ => none) with
  | some (v :: vs) =>
    some (vs.foldl min v, vs.foldl max v, (v :: vs).sum / (data.length : ℚ))
  | _ => none

/-- The generic default routine output. -/
structure GeneralInsightsAI where
  resultCount : ℕ
  fields : List String
  numericalStats : List (String × Option (ℚ × ℚ × ℚ))
  sample : List JsRow
deriving DecidableEq

/-- generateGeneralInsights(structuredQuery, retrievedData) of
ai-analysis-service.js, the generic default of the dispatch: result count,
field list, min/max/avg per number-typed field, first ten rows. -/
def generateGeneralInsightsAI (data : List JsRow) : GeneralInsightsAI :=
  match data with
  | [] => ⟨0, [], [], []⟩
  | first :: _ =>
    let fields := first.map Prod.fst
    let nums := fields.filterMap (fun f =>
      match lookupField first f with
      | some (JsVal.num _) => some (f, generalNumStats data f)
      | _ => none)
    ⟨data.length, fields, nums, data.take 10⟩

/-! ### Trend routine (analyzeTrendData of data-analysis-service.js).
Date parsing, calendar month extraction and locale month formatting are
external (the JS Date object) and taken as parameters. -/

/-- One row of the trend result set. -/
structure TrendRow where
  time_period : String
  count : ℚ
deriving DecidableEq

/-- The trendStats object of the nonempty branch. -/
structure TrendStats where
  firstPeriod : String
  lastPeriod : String
  firstValue : ℚ
  lastValue : ℚ
  percentChange : Option ℚ
  trend : String
deriving DecidableEq

/-- One significant consecutive-period change. -/
structure SigChange where
  period : String
  previousPeriod : String
  previousValue : ℚ
  currentValue : ℚ
  percentChange : ℚ
  direction : String
deriving DecidableEq

/-- The seasonality verdict.  The source stores these as fixed sentence
strings; the detected sentence lists each seasonal month with its rounded
deviation, kept here structurally (float-to-string formatting is not
modelled). -/
inductive SeasonalityVerdict
  | insufficientData
  | noClearPattern
  | detected (months : List (String × ℚ))
deriving DecidableEq

/-- The trend analysis result; fields that the zero-row early return
leaves absent are Options. -/
structure TrendAnalysisDA where
  trendStats : Option TrendStats
  significantChanges : List SigChange
  seasonality : Option SeasonalityVerdict
  trendLine : Option (List (String × ℚ))
  movingAverage : Option (List (String × ℚ))
  yearOverYear : Option (List (String × ℚ × ℚ))
deriving DecidableEq

/-- Stable insertion into a list sorted ascending by an integer key. -/
def insertAscByInt {α : Type} (key : α → ℤ) (x : α) : List α → List α
  | [] => [x]
  | y :: ys => if key x < key y then x :: y :: ys else y :: insertAscByInt key x ys

/-- Stable ascending sort by an integer key (the JS comparator
new Date(a.time_period) - new Date(b.time_period)). -/
def sortAscByInt {α : Type} (key : α → ℤ) : List α → List α
  | [] => []
  | x :: xs => insertAscByInt key x (sortAscByInt key xs)

/-- The significant-changes loop over consecutive sorted rows: skip pairs
with a zero previous value, flag rounded changes of magnitude at least
20. -/
def sigChanges : List TrendRow → List SigChange
  | [] => []
  | [_] => []
  | a :: b :: rest =>
    (if a.count = 0 then []
     else
       let change := jsFixed1 ((b.count - a.count) / a.count * 100)
       if 20 ≤ |change| then
         [⟨b.time_period, a.time_period, a.count, b.count, change,
           if change ≥ 0 then "increase" else "decrease"⟩]
       else [])
    ++ sigChanges (b :: rest)

/-- The three-period moving average over the sorted rows. -/
def movingAvg3 : List TrendRow → List (String × ℚ)
  | a :: b :: c :: rest =>
    (c.time_period, (c.count + b.count + a.count) / 3)
      :: movingAvg3 (b :: c :: rest)
  | _ => []

/-- The English month names used by the seasonality message. -/
def monthNames : List String :=
  ["January", "February", "March", "April", "May", "June",
   "July", "August", "September", "October", "November", "December"]

/-- The seasonality computation of the branch with at least 24 periods:
per-calendar-month averages, the global average over months with positive
averages, and the months whose rounded deviation is at least 20 percent.
(When no month has a positive average the JS global average is NaN and no
month is flagged; here the division yields 0 with the same outcome, since
zero-valued months are skipped.) -/
def seasonalityOf (monthOf : String → Fin 12) (rows : List TrendRow) :
    SeasonalityVerdict :=
  let monthCnt : Fin 12 → ℕ :=
    fun m => (rows.filter (fun r => monthOf r.time_period == m)).length
  let monthSum : Fin 12 → ℚ :=
    fun m => ((rows.filter (fun r => monthOf r.time_period == m)).map
      (fun r => r.count)).sum
  let monthlyAvg : Fin 12 → ℚ :=
    fun m => if monthCnt m > 0 then monthSum m / (monthCnt m : ℚ) else 0
  let months := List.finRange 12
  let avgValue := (months.map monthlyAvg).sum
    / ((months.filter (fun m => decide (monthlyAvg m > 0))).length : ℚ)
  let seasonalMonths := months.filterMap (fun m =>
    if monthlyAvg m = 0 then none
    else
      let deviation := jsFixed1 ((monthlyAvg m - avgValue) / avgValue * 100)
      if 20 ≤ |deviation| then
        some (monthNames.getD m.val "", deviation)
      else none)
  if seasonalMonths.isEmpty then SeasonalityVerdict.noClearPattern
  else SeasonalityVerdict.detected seasonalMonths

/-- The year-over-year entries of the branch with at least 13 periods:
each row from index 12 on, against the row twelve periods earlier. -/
def yoyOf (fmtShortMonth : String → String) (rows : List TrendRow) :
    List (String × ℚ × ℚ) :=
  ((rows.drop 12).zip rows).map
    (fun p => (fmtShortMonth p.1.time_period, p.1.count, p.2.count))

/-- analyzeTrendData(retrievedData, structuredQuery) of
data-analysis-service.js.  On zero rows the early return leaves every
field zeroed or absent.  On the nonempty branch: rows sorted ascending by
date, percent change from first to last value (first value 0 gives the JS
Infinity or NaN, modelled none, and the trend string then compares the
last value with zero, since counts are nonnegative), significant
consecutive changes, three-period moving average, the seasonality verdict
(insufficient data below 24 periods), the trend line, and year-over-year
pairs from 13 periods on. -/
def analyzeTrendDataDA (dateVal : String → ℤ) (monthOf : String → Fin 12)
    (fmtShortMonth : String → String) (data : List TrendRow) :
    TrendAnalysisDA :=
  match data with
  | [] => ⟨none, [], none, none, none, none⟩
  | d0 :: drest =>
    match sortAscByInt (fun r => dateVal r.time_period) (d0 :: drest) with
    | [] => ⟨none, [], none, none, none, none⟩
    | f :: rest =>
      let lastRow := rest.getLastD f
      let firstValue := f.count
      let lastValue := lastRow.count
      let pc : Option ℚ :=
        if firstValue = 0 then none
        else some (jsFixed1 ((lastValue - firstValue) / firstValue * 100))
      let trend :=
        match pc with
        | some x => if x ≥ 0 then "increasing" else "decreasing"
        | none => if lastValue > 0 then "increasing" else "decreasing"
      ⟨some ⟨f.time_period, lastRow.time_period, firstValue, lastValue,
          pc, trend⟩,
       sigChanges (f :: rest),
       some (if (f :: rest).length ≥ 24 then seasonalityOf monthOf (f :: rest)
         else SeasonalityVerdict.insufficientData),
       some ((f :: rest).map (fun r => (r.time_period, r.count))),
       some (movingAvg3 (f :: rest)),
       if (f :: rest).length ≥ 13 then
         some (yoyOf fmtShortMonth (f :: rest))
       else none⟩

/-! ### Violation routine (analyzeViolationData of
data-analysis-service.js; the file is truncated inside the final sort of
buildingsWithMultipleViolations, whose visible comparator prefix forces
descending order by violationCount; the visualization tail after it is
omitted). -/

/-- One row of the violation result set. -/
structure ViolationRow where
  source : Option String
  violationstatus : Option String
  violationtype : Option String
  bbl : Option String
  address : Option String
  borough : Option String
  violationid : Option String
  issueddate : Option String
deriving DecidableEq

/-- One entry of the per-building violation grouping. -/
structure ViolationsByBuildingEntry where
  bbl : String
  address : Option String
  borough : Option String
  violationCount : ℕ
  violations : List (Option String × Option String × Option String
    × Option String × Option String)
deriving DecidableEq

/-- One step of the per-building grouping loop: skip rows without a bbl,
bump an existing entry or append a new one. -/
def addViolation (acc : List ViolationsByBuildingEntry) (v : ViolationRow) :
    List ViolationsByBuildingEntry :=
  match v.bbl with
  | none => acc
  | some b =>
    if b = "" then acc
    else if acc.any (fun e => e.bbl == b) then
      acc.map (fun e =>
        if e.bbl == b then
          { e with
            violationCount := e.violationCount + 1
            violations := e.violations ++
              [(v.violationid, v.violationtype, v.violationstatus,
                v.issueddate, v.source)] }
        else e)
    else
      acc ++ [{ bbl := b, address := v.address, borough := v.borough,
                violationCount := 1,
                violations := [(v.violationid, v.violationtype,
                  v.violationstatus, v.issueddate, v.source)] }]

/-- The violation analysis result (visible fields). -/
structure ViolationAnalysisDA where
  violationsBySource : List (String × ℕ)
  violationsByStatus : List (String × ℕ)
  topViolationTypes : List (String × ℕ)
  buildingsWithMultipleViolations : List ViolationsByBuildingEntry
deriving DecidableEq

/-- analyzeViolationData(retrievedData, structuredQuery) of
data-analysis-service.js: tallies by source, status and type (Unknown for
absent values), the top ten types by count, and the buildings holding more
than one violation, sorted descending by count. -/
def analyzeViolationDataDA (data : List ViolationRow) : ViolationAnalysisDA :=
  { violationsBySource := tallyBy (data.map (fun v => jsOrStr v.source "Unknown"))
    violationsByStatus :=
      tallyBy (data.map (fun v => jsOrStr v.violationstatus "Unknown"))
    topViolationTypes :=
      (sortDescBy (fun p => (p.2 : ℚ))
        (tallyBy (data.map (fun v => jsOrStr v.violationtype "Unknown")))).take 10
    buildingsWithMultipleViolations :=
      sortDescBy (fun e => (e.violationCount : ℚ))
        ((data.foldl addViolation []).filter (fun e => e.violationCount > 1)) }

/-! ### General-stats routine (analyzeGeneralStatsData of
ai-analysis-service.js).  Its input is the single aggregate row; on the
empty result set the transformation layer supplies the empty object, and
all derived statistics are NaN. -/

/-- The aggregate row of the general-stats query; a field is none when
absent (the empty object of a zero-row result). -/
structure GeneralStatsRow where
  total_buildings : Option ℚ
  avg_year_built : Option ℚ
  oldest_building : Option ℚ
  newest_building : Option ℚ
  avg_floors : Option ℚ
  max_floors : Option ℚ
  total_residential_units : Option ℚ
  total_hpd_violations : Option ℚ
  total_dob_violations : Option ℚ
deriving DecidableEq

/-- The empty aggregate row (zero-row result). -/
def emptyGeneralStatsRow : GeneralStatsRow :=
  ⟨none, none, none, none, none, none, none, none, none⟩

/-- JS addition where either operand may be undefined (NaN result). -/
def optAdd (a b : Option ℚ) : Option ℚ :=
  match a, b with
  | some x, some y => some (x + y)
  | _, _ => none

/-- JS subtraction where either operand may be undefined (NaN result). -/
def optSub (a b : Option ℚ) : Option ℚ :=
  match a, b with
  | some x, some y => some (x - y)
  | _, _ => none

/-- JS division where either operand may be undefined or the divisor zero
(NaN or Infinity result, both modelled none). -/
def optDiv (a b : Option ℚ) : Option ℚ :=
  match a, b with
  | some x, some y => if y = 0 then none else some (x / y)
  | _, _ => none

/-- The derivedStats object of the general-stats routine. -/
structure DerivedStatsAI where
  averageUnitsPerBuilding : Option ℚ
  violationsPerBuilding : Option ℚ
  buildingAgeRange : Option ℚ
  averageBuildingAge : Option ℚ
deriving DecidableEq

/-- The general-stats analysis result. -/
structure GeneralStatsAnalysisAI where
  generalStats : GeneralStatsRow
  derivedStats : DerivedStatsAI
  violationDistribution : List (String × Option ℚ)
  buildingAgeDistribution : List (String × ℚ)
deriving DecidableEq

/-- analyzeGeneralStatsData(structuredQuery, retrievedData) of
ai-analysis-service.js: derived ratios over the aggregate row and the
fixed visualization shells. -/
def analyzeGeneralStatsDataAI (currentYear : ℤ) (data : GeneralStatsRow) :
    GeneralStatsAnalysisAI :=
  { generalStats := data
    derivedStats :=
      { averageUnitsPerBuilding :=
          optDiv data.total_residential_units data.total_buildings
        violationsPerBuilding :=
          optDiv (optAdd data.total_hpd_violations data.total_dob_violations)
            data.total_buildings
        buildingAgeRange := optSub data.newest_building data.oldest_building
        averageBuildingAge :=
          optSub (some (currentYear : ℚ)) data.avg_year_built }
    violationDistribution :=
      [("HPD Violations", data.total_hpd_violations),
       ("DOB Violations", data.total_dob_violations)]
    buildingAgeDistribution :=
      [("Pre-1900", 0), ("1900-1950", 0), ("1951-2000", 0), ("Post-2000", 0)] }

/-! ### Building routine (analyzeBuildingData of ai-analysis-service.js;
the same-intent routine of the data-analysis service is missing from the
truncated sources).  The age and size visualization groupings rely on
helpers missing from the truncated file and are omitted. -/

/-- One row of the building result set. -/
structure BuildingRow where
  yearbuilt : Option ℚ
  numfloors : Option ℚ
  unitsres : Option ℚ
  bldgclass : Option String
deriving DecidableEq

/-- Modelled from the spec: calculateAverage of ai-analysis-service.js is
missing from the truncated sources.  The spec requires graceful zero-row
degradation to zeroed values, and the same-named helper that is present in
data-transformation-service.js guards the empty list with 0 and treats
unparsable values as 0; that behavior is adopted. -/
def calculateAverageAI (values : List (Option ℚ)) : ℚ :=
  if values.isEmpty then 0
  else ((values.map (fun v => v.getD 0)).sum) / (values.length : ℚ)

/-- The building analysis result (buildingStats flattened; visualization
groupings omitted, see above). -/
structure BuildingAnalysisAI where
  totalBuildings : ℕ
  averageYearBuilt : ℚ
  averageFloors : ℚ
  averageUnits : ℚ
  buildingTypes : List (String × ℕ)
  buildings : List BuildingRow
deriving DecidableEq

/-- analyzeBuildingData(structuredQuery, retrievedData) of
ai-analysis-service.js: count, field averages, type tally (the missing
countBuildingTypes helper is modelled as the bldgclass tally that the
in-repo transformBuildingData uses, with Unknown for absent classes) and
the first ten buildings. -/
def analyzeBuildingDataAI (data : List BuildingRow) : BuildingAnalysisAI :=
  { totalBuildings := data.length
    averageYearBuilt := calculateAverageAI (data.map (fun b => b.yearbuilt))
    averageFloors := calculateAverageAI (data.map (fun b => b.numfloors))
    averageUnits := calculateAverageAI (data.map (fun b => b.unitsres))
    buildingTypes := tallyBy (data.map (fun b => jsOrStr b.bldgclass "Unknown"))
    buildings := data.take 10 }

/-! ### Comparison routine (analyzeComparisonData of
ai-analysis-service.js; the significantDifferences field relies on a
helper missing from the truncated file and is omitted). -/

/-- One row of the comparison result set: the grouping category and the
six fixed metrics. -/
structure ComparisonRow where
  category : Option String
  building_count : Option ℚ
  avg_year_built : Option ℚ
  avg_floors : Option ℚ
  avg_residential_units : Option ℚ
  hpd_violation_count : Option ℚ
  dob_violation_count : Option ℚ
deriving DecidableEq

/-- item[metric] for the six fixed comparison metrics. -/
def comparisonMetricVal (m : String) (r : ComparisonRow) : Option ℚ :=
  if m = "building_count" then r.building_count
  else if m = "avg_year_built" then r.avg_year_built
  else if m = "avg_floors" then r.avg_floors
  else if m = "avg_residential_units" then r.avg_residential_units
  else if m = "hpd_violation_count" then r.hpd_violation_count
  else if m = "dob_violation_count" then r.dob_violation_count
  else none

/-- The comparison analysis result (significantDifferences omitted, see
above). -/
structure ComparisonAnalysisAI where
  totalCategories : ℕ
  comparisonMetrics : List String
  visualizationData : List (String × List (Option String × Option ℚ))
  comparisonData : List ComparisonRow
deriving DecidableEq

/-- analyzeComparisonData(structuredQuery, retrievedData) of
ai-analysis-service.js: category count, the fixed metric list, and one
chart per metric over the rows sorted descending by value (absent values
sort as 0; the JS comparator yields NaN on them, leaving their order
engine-defined). -/
def analyzeComparisonDataAI (data : List ComparisonRow) :
    ComparisonAnalysisAI :=
  let metrics := ["building_count", "avg_year_built", "avg_floors",
    "avg_residential_units", "hpd_violation_count", "dob_violation_count"]
  { totalCategories := data.length
    comparisonMetrics := metrics
    visualizationData := metrics.map (fun m =>
      (m, sortDescBy (fun p => p.2.getD 0)
        (data.map (fun r => (r.category, comparisonMetricVal m r)))))
    comparisonData := data }

/-- C2 counterexample: on the empty row set both risk analyzers do return
totalBuildings = 0 and zeroed riskLevelCounts without throwing, but the
derived percentage and average fields are the result of dividing by the
zero row count (JS NaN, modelled none), so the claim that all derived
fields are well-defined numbers is false. -/
theorem c2_counterexample_empty_rows_nan :
    (analyzeRiskDataDA []).riskStats.totalBuildings = 0
    ∧ (analyzeRiskDataDA []).riskStats.riskLevelCounts = ⟨0, 0, 0, 0⟩
    ∧ (analyzeRiskDataDA []).riskStats.riskLevelPercentages.high = none
    ∧ (analyzeRiskDataAI []).riskStats.averageRiskScore = none := by
  refine ⟨rfl, rfl, rfl, ?_⟩
  simp [analyzeRiskDataAI, jsDivOpt]

/-- C2 (amended): on the empty row set every analyzer routine - the risk,
trend, violation, building, comparison and general-stats routines and the
generic default, in whichever of the two analyzer implementations the
sources provide them - returns zeroed or empty statistics without throwing
(in particular both risk routines yield totalBuildings = 0, all
riskLevelCounts 0 and an empty top-buildings list); however, the derived
ratio fields - the four riskLevelPercentages of the data-analysis risk
routine, the highRiskPercentage, mediumRiskPercentage and averageRiskScore
of the ai-analysis risk routine, and all four derivedStats of the
general-stats routine - are NaN, results of dividing by the zero row count
or of arithmetic on absent aggregates, rather than well-defined
numbers. -/
theorem c2_empty_rows_zeroed_with_nan_ratios :
    analyzeRiskDataDA [] =
      { riskStats :=
          { riskLevelCounts := ⟨0, 0, 0, 0⟩
            totalBuildings := 0
            riskLevelPercentages := ⟨none, none, none, none⟩ }
        topRiskBuildings := []
        riskDistribution :=
          [("High", 0), ("Medium", 0), ("Low", 0), ("Minimal", 0)] }
    ∧ analyzeRiskDataAI [] =
      { riskStats :=
          { totalBuildings := 0
            highRiskCount := 0
            highRiskPercentage := none
            mediumRiskCount := 0
            mediumRiskPercentage := none
            averageRiskScore := none }
        topRiskBuildings := []
        riskDistribution :=
          [("High", 0), ("Medium", 0), ("Low", 0), ("Minimal", 0)] }
    ∧ calculateBasicStatistics [] = ⟨0, [], []⟩
    ∧ (∀ (dateVal : String → ℤ) (monthOf : String → Fin 12)
          (fmt : String → String),
        analyzeTrendDataDA dateVal monthOf fmt []
          = ⟨none, [], none, none, none, none⟩)
    ∧ analyzeViolationDataDA [] = ⟨[], [], [], []⟩
    ∧ (∀ currentYear : ℤ,
        analyzeGeneralStatsDataAI currentYear emptyGeneralStatsRow
          = ⟨emptyGeneralStatsRow, ⟨none, none, none, none⟩,
             [("HPD Violations", none), ("DOB Violations", none)],
             [("Pre-1900", 0), ("1900-1950", 0), ("1951-2000", 0),
              ("Post-2000", 0)]⟩)
    ∧ generateGeneralInsightsAI [] = ⟨0, [], [], []⟩
    ∧ analyzeBuildingDataAI [] = ⟨0, 0, 0, 0, [], []⟩
    ∧ analyzeComparisonDataAI []
      = ⟨0, ["building_count", "avg_year_built", "avg_floors",
             "avg_residential_units", "hpd_violation_count",
             "dob_violation_count"],
          [("building_count", []), ("avg_year_built", []), ("avg_floors", []),
           ("avg_residential_units", []), ("hpd_violation_count", []),
           ("dob_violation_count", [])], []⟩ := by
  refine ⟨rfl, ?_, rfl, fun _ _ _ => rfl, rfl, fun _ => rfl, rfl, ?_, rfl⟩
  · simp [analyzeRiskDataAI, pctOfCount, jsDivOpt]
  · simp [analyzeBuildingDataAI, calculateAverageAI, tallyBy]

/-! ## Conversation manager (interactive-refinement-service.js):
getOrCreateConversation, cleanupOldConversations, getUserConversations.
The JS Map keyed by userId:conversationId is modelled as an
insertion-ordered list of entries keyed by the (userId, conversationId)
pair; only the start time of each stored conversation matters to the
eviction logic. -/

/-- One stored conversation: its map key and its startTime in epoch
milliseconds. -/
structure StoredConv where
  userId : String
  convId : String
  startTime : ℤ
deriving DecidableEq

/-- this.maxConversationAge = 30 * 60 * 1000. -/
def maxConversationAge : ℤ := 30 * 60 * 1000

/-- this.maxConversationsPerUser = 5. -/
def maxConversationsPerUser : ℕ := 5

/-- Stable insertion into a list sorted descending by age (the JS
comparator (a, b) => b.age - a.age, oldest first). -/
def insertAgeDesc (x : StoredConv × ℤ) :
    List (StoredConv × ℤ) → List (StoredConv × ℤ)
  | [] => [x]
  | y :: ys => if x.2 > y.2 then x :: y :: ys else y :: insertAgeDesc x ys

/-- Sort (conversation, age) pairs descending by age. -/
def sortAgeDesc : List (StoredConv × ℤ) → List (StoredConv × ℤ)
  | [] => []
  | x :: xs => insertAgeDesc x (sortAgeDesc xs)

/-- cleanupOldConversations(userId): collect this user's conversations with
their ages, delete those older than the TTL, and if the user's collected
count (computed before the TTL deletions) exceeds the cap, sort oldest
first and delete every entry after the first maxConversationsPerUser - so
the entries removed by the cap are the newest beyond the five oldest, not
the oldest. -/
def cleanupOldConversations (conversations : List StoredConv)
    (userId : String) (now : ℤ) : List StoredConv :=
  let userConversations :=
    (conversations.filter (fun e => e.userId == userId)).map
      (fun e => (e, now - e.startTime))
  let afterTTL := conversations.filter
    (fun e => !(e.userId == userId && decide (now - e.startTime > maxConversationAge)))
  if userConversations.length > maxConversationsPerUser then
    let doomed := ((sortAgeDesc userConversations).drop maxConversationsPerUser).map
      (fun p => (p.1.userId, p.1.convId))
    afterTTL.filter (fun e => !(doomed.contains (e.userId, e.convId)))
  else afterTTL

/-- getOrCreateConversation(userId, conversationId): clean up first, then
return the requested conversation when its key is live, else create a new
conversation (its fresh id and creation time are external inputs) and
append it to the map.  Returns the conversation id together with the new
store state. -/
def getOrCreateConversation (conversations : List StoredConv)
    (userId : String) (conversationId : Option String) (now : ℤ)
    (freshId : String) : String × List StoredConv :=
  let cleaned := cleanupOldConversations conversations userId now
  match conversationId with
  | some cid =>
    if cleaned.any (fun e => e.userId == userId && e.convId == cid) then
      (cid, cleaned)
    else
      (freshId, cleaned ++ [⟨userId, freshId, now⟩])
  | none => (freshId, cleaned ++ [⟨userId, freshId, now⟩])

/-- getUserConversations(userId). -/
def getUserConversations (conversations : List StoredConv)
    (userId : String) : List StoredConv :=
  conversations.filter (fun e => e.userId == userId)

/-- The concrete run of claim C3: owner "u" creates six sessions (ids c0
to c5) at times 0,1,2,3,4,5 ms via getOrCreateConversation, all well within
the 30 minute TTL, then calls getOrCreateConversation once more at time
6 ms. -/
def c3Run : List StoredConv :=
  let s1 := (getOrCreateConversation [] "u" none 0 "c0").2
  let s2 := (getOrCreateConversation s1 "u" none 1 "c1").2
  let s3 := (getOrCreateConversation s2 "u" none 2 "c2").2
  let s4 := (getOrCreateConversation s3 "u" none 3 "c3").2
  let s5 := (getOrCreateConversation s4 "u" none 4 "c4").2
  let s6 := (getOrCreateConversation s5 "u" none 5 "c5").2
  (getOrCreateConversation s6 "u" none 6 "c6").2

/-- C3 (code bug, evaluation at the failing input): after inserting cap+1
= 6 sessions and calling getOrCreate once more, listForOwner returns six
sessions, not five, and the session evicted by the cap sweep is c5 - the
most recently created of the first six - while the five oldest (c0..c4)
are all kept; the claim (and the source comment "remove oldest ones") says
the oldest beyond the cap are dropped, leaving the five most recently
touched. -/
theorem c3_eviction_keeps_oldest_not_newest :
    (getUserConversations c3Run "u").map (fun e => e.convId)
      = ["c0", "c1", "c2", "c3", "c4", "c6"]
    ∧ (getUserConversations c3Run "u").length = 6 := by
  constructor <;> rfl

/-! ## Query compiler (buildRiskAssessmentQuery of the database query
builder): each filter becomes one WHERE predicate; BETWEEN filters with a
two-element array value bind two parameters, every other filter binds
one. -/

/-- The guard operator === 'BETWEEN' && Array.isArray(value) &&
value.length === 2. -/
def isBetweenPair (f : QueryFilter) : Bool :=
  f.operator == "BETWEEN" &&
    (match f.value with
     | SqlValue.listV vs => vs.length == 2
     | _ => false)

/-- The single WHERE predicate produced for one filter, given the current
positional parameter index. -/
def filterClause (f : QueryFilter) (paramIndex : ℕ) : String :=
  if isBetweenPair f then
    f.table ++ "." ++ f.column ++ " BETWEEN $" ++ toString paramIndex
      ++ " AND $" ++ toString (paramIndex + 1)
  else
    f.table ++ "." ++ f.column ++ " " ++ f.operator ++ " $"
      ++ toString paramIndex

/-- The bound parameters one filter pushes: both endpoints for a BETWEEN
pair, the value itself otherwise. -/
def filterParams (f : QueryFilter) : List SqlValue :=
  match f.value, f.operator == "BETWEEN" with
  | SqlValue.listV [a, b], true => [SqlValue.str a, SqlValue.str b]
  | v, _ => [v]

/-- How many positional parameters one filter consumes. -/
def paramCost (f : QueryFilter) : ℕ := if isBetweenPair f then 2 else 1

/-- The filters.forEach loop: fold accumulating whereClause, params and
paramIndex (starting at 1). -/
def processFilters (filters : List QueryFilter) :
    List String × List SqlValue × ℕ :=
  filters.foldl
    (fun acc f =>
      (acc.1 ++ [filterClause f acc.2.2], acc.2.1 ++ filterParams f,
        acc.2.2 + paramCost f))
    ([], [], 1)

/-- buildRiskAssessmentQuery(queryParams): process the filters, default
the WHERE clause to 1=1 when empty, and append the LIMIT value (limit ||
100) as the final bound parameter.  Only the predicate list and parameter
list are retained; the surrounding SELECT text is fixed. -/
def buildRiskAssessmentQuery (filters : List QueryFilter)
    (limit : Option ℕ) : List String × List SqlValue :=
  let r := processFilters filters
  let whereClause := if r.1.isEmpty then ["1=1"] else r.1
  (whereClause, r.2.1 ++ [SqlValue.num (jsOrNat limit 100)])

/-- A single quote character (the SQL string delimiter). -/
def sqlQuoteChar : Char := Char.ofNat 39

/-- A value wrapped in SQL single quotes, as produced by the template
literal quoting in buildWhereClause. -/
def sqlQuote (s : String) : String :=
  String.mk (sqlQuoteChar :: (s.toList ++ [sqlQuoteChar]))

/-- The JS string coercion of a filter value inside a template literal
(an array joins its elements with commas). -/
def sqlValueText (v : SqlValue) : String :=
  match v with
  | SqlValue.str s => s
  | SqlValue.num n => toString n
  | SqlValue.listV vs => String.intercalate "," vs

/-- Modelled from the spec: buildWhereClause of data-retrieval-service.js
is truncated in the sources right after its LIKE case label, so only the
1=1 default and the = arm are visible; the = arm below is the visible
source, interpolating the quoted value directly into the SQL text, and the
remaining arms follow spec section 9, which records that these retrieval
paths interpolate user-influenced values directly into SQL strings (the
BETWEEN arm interpolating both endpoints). -/
def interpolatedClause (f : QueryFilter) : String :=
  match f.operator with
  | "=" => f.table ++ "." ++ f.column ++ " = " ++ sqlQuote (sqlValueText f.value)
  | "LIKE" =>
    f.table ++ "." ++ f.column ++ " LIKE " ++ sqlQuote (sqlValueText f.value)
  | "BETWEEN" =>
    (match f.value with
     | SqlValue.listV (a :: b :: _) =>
       f.table ++ "." ++ f.column ++ " BETWEEN " ++ sqlQuote a
         ++ " AND " ++ sqlQuote b
     | v => f.table ++ "." ++ f.column ++ " BETWEEN " ++ sqlQuote (sqlValueText v))
  | op => f.table ++ "." ++ f.column ++ " " ++ op ++ " "
      ++ sqlQuote (sqlValueText f.value)

/-- buildWhereClause(filters) of data-retrieval-service.js: the default
1=1 on no filters, else the interpolated clauses joined with AND. -/
def buildWhereClauseDR (filters : List QueryFilter) : String :=
  if filters.isEmpty then "1=1"
  else String.intercalate " AND " (filters.map interpolatedClause)

/-- The query execution of retrieveRiskAssessmentData: pool.query(query)
is invoked with the SQL text alone (the WHERE clause from
buildWhereClauseDR and the LIMIT value interpolated into it) and no
parameter array, so the bound parameter list of the call is empty. -/
def retrieveRiskAssessmentCall (filters : List QueryFilter) (lim : ℕ) :
    String × List SqlValue :=
  (buildWhereClauseDR filters ++ " LIMIT " ++ toString lim, [])

/-- C6 counterexample: on the buildWhereClause compile path of the
data-retrieval service, an equality filter is interpolated - its value
appears quoted inside the SQL text and no positional placeholder is
emitted - and the whole risk-assessment query executes with an empty bound
parameter list, so neither a BETWEEN filter nor any other filter consumes
a bound parameter on this cited path. -/
theorem c6_counterexample_interpolated_no_params :
    jsIncludes
        (interpolatedClause
          ⟨"pluto", "borough", "=", SqlValue.str "Brooklyn"⟩)
        (sqlQuote "Brooklyn") = true
    ∧ jsIncludes
        (interpolatedClause
          ⟨"pluto", "borough", "=", SqlValue.str "Brooklyn"⟩) "$" = false
    ∧ (retrieveRiskAssessmentCall
        [⟨"pluto", "borough", "=", SqlValue.str "Brooklyn"⟩,
         ⟨"hpd_violations", "issueddate", "BETWEEN",
           SqlValue.listV ["2020-01-01", "2020-12-31"]⟩] 50).2 = [] := by
  refine ⟨by decide, by decide, rfl⟩

/-- Direct recursion computing the predicate of every filter at its
correct parameter index: the decompiled shape the fold must match. -/
def clausesSpec : List QueryFilter → ℕ → List String
  | [], _ => []
  | f :: rest, idx => filterClause f idx :: clausesSpec rest (idx + paramCost f)

theorem processFilters_foldl (filters : List QueryFilter) :
    ∀ (wc : List String) (ps : List SqlValue) (idx : ℕ),
      filters.foldl
        (fun acc f =>
          (acc.1 ++ [filterClause f acc.2.2], acc.2.1 ++ filterParams f,
            acc.2.2 + paramCost f))
        (wc, ps, idx)
      = (wc ++ clausesSpec filters idx,
         ps ++ (filters.map filterParams).flatten,
         idx + (filters.map paramCost).sum) := by
  induction filters with
  | nil => intro wc ps idx; simp [clausesSpec]
  | cons f rest ih =>
    intro wc ps idx
    simp only [List.foldl_cons, ih, clausesSpec, List.map_cons, List.flatten,
      List.map, List.sum_cons, Prod.mk.injEq]
    refine ⟨by simp, by simp, by omega⟩

/-- C6 (amended): in the parameterized builder, every filter given to
buildRiskAssessmentQuery becomes exactly one WHERE predicate, in order and
at its own parameter indices (none dropped or duplicated, operator-value
pairing preserved); under the StructuredQuery invariant that BETWEEN
values are two-element pairs, a BETWEEN filter consumes exactly two bound
parameters (its two endpoints, in order) and every other filter exactly
one (its value); the bound parameter list is exactly the concatenation of
the per-filter parameters followed by the LIMIT value, and an empty filter
list compiles to the default predicate 1=1.  On the buildWhereClause path
of the data-retrieval service each filter still becomes exactly one WHERE
predicate (1=1 when there are none), but every value is interpolated into
the SQL text and the query executes with an empty bound parameter list, so
no filter consumes any bound parameter there. -/
theorem c6_filters_compile_one_to_one (filters : List QueryFilter)
    (limit : Option ℕ)
    (hb : ∀ f ∈ filters, f.operator = "BETWEEN" → isBetweenPair f = true) :
    (filters = [] → (buildRiskAssessmentQuery filters limit).1 = ["1=1"])
    ∧ (filters ≠ [] →
        (buildRiskAssessmentQuery filters limit).1 = clausesSpec filters 1
        ∧ (buildRiskAssessmentQuery filters limit).1.length = filters.length)
    ∧ (buildRiskAssessmentQuery filters limit).2
        = (filters.map filterParams).flatten ++ [SqlValue.num (jsOrNat limit 100)]
    ∧ (∀ f ∈ filters, (filterParams f).length = paramCost f)
    ∧ (∀ f ∈ filters, f.operator = "BETWEEN" → (filterParams f).length = 2)
    ∧ (∀ f ∈ filters, f.operator ≠ "BETWEEN" → filterParams f = [f.value])
    ∧ buildWhereClauseDR [] = "1=1"
    ∧ (∀ fs : List QueryFilter, (fs.map interpolatedClause).length = fs.length)
    ∧ (∀ (fs : List QueryFilter) (lim : ℕ),
        (retrieveRiskAssessmentCall fs lim).2 = []) := by
  have hlen : ∀ (fs : List QueryFilter) (idx : ℕ),
      (clausesSpec fs idx).length = fs.length := by
    intro fs
    induction fs with
    | nil => intro idx; rfl
    | cons f rest ih => intro idx; simp [clausesSpec, ih]
  have hrun := processFilters_foldl filters [] [] 1
  have hcost : ∀ f : QueryFilter, (filterParams f).length = paramCost f := by
    intro f
    unfold filterParams paramCost isBetweenPair
    cases hv : f.value with
    | str s => cases hop : f.operator == "BETWEEN" <;> simp [hop]
    | num n => cases hop : f.operator == "BETWEEN" <;> simp [hop]
    | listV vs =>
      cases hop : f.operator == "BETWEEN" with
      | false => simp [hop]
      | true =>
        match vs with
        | [] => simp [hop]
        | [a] => simp [hop]
        | [a, b] => simp [hop]
        | a :: b :: c :: rest => simp [hop]
  refine ⟨?_, ?_, ?_, fun f _ => hcost f, ?_, ?_, rfl,
    fun fs => by simp, fun fs lim => rfl⟩
  · intro h
    subst h
    rfl
  · intro hne
    unfold buildRiskAssessmentQuery processFilters
    rw [hrun]
    have : clausesSpec filters 1 ≠ [] := by
      cases filters with
      | nil => exact absurd rfl hne
      | cons f rest => simp [clausesSpec]
    simp only [List.nil_append]
    constructor
    · simp [List.isEmpty_iff, this]
    · simp [List.isEmpty_iff, this, hlen]
  · unfold buildRiskAssessmentQuery processFilters
    rw [hrun]
    simp
  · intro f hf hop
    have := hb f hf hop
    rw [hcost f]
    unfold paramCost
    simp [this]
  · intro f hf hop
    unfold filterParams
    cases hv : f.value with
    | str s => simp [show (f.operator == "BETWEEN") = false by simp [hop]]
    | num n => simp [show (f.operator == "BETWEEN") = false by simp [hop]]
    | listV vs =>
      have : (f.operator == "BETWEEN") = false := by simp [hop]
      match vs with
      | [] => simp [this]
      | [a] => simp [this]
      | [a, b] => simp [this]
      | a :: b :: c :: rest => simp [this]

/-- The concrete filter list of the C6 witness: one equality filter and
one BETWEEN range filter. -/
def demoFilters : List QueryFilter :=
  [{ table := "pluto", column := "borough", operator := "=",
     value := SqlValue.str "Brooklyn" },
   { table := "hpd_violations", column := "issueddate", operator := "BETWEEN",
     value := SqlValue.listV ["2020-01-01", "2020-12-31"] }]

/-- C6 witness: the compile theorem applied to the concrete filter list,
with the predicates and the bound parameters spelled out. -/
theorem c6_filters_compile_witness :
    (buildRiskAssessmentQuery demoFilters (some 50)).1
      = ["pluto.borough = $1",
         "hpd_violations.issueddate BETWEEN $2 AND $3"]
    ∧ (buildRiskAssessmentQuery demoFilters (some 50)).2
      = [SqlValue.str "Brooklyn", SqlValue.str "2020-01-01",
         SqlValue.str "2020-12-31", SqlValue.num 50] := by
  have h := c6_filters_compile_one_to_one demoFilters (some 50) (by decide)
  constructor
  · rw [(h.2.1 (by decide)).1]
    decide
  · rw [h.2.2.1]
    decide

/-! ## Pattern detector (pattern-detection-service): detectRiskPatterns
geographic concentration, detectViolationPatterns dominant type and
high-violation-count anomaly.  The analyzer computes each common factor
percentage as ((count / total) * 100).toFixed(1) and the detector compares
parseFloat of that string with the threshold, so the compared value is the
share rounded to one decimal place. -/

/-- One entry of highRiskPatterns.commonFactors as built by the
data-analysis-service risk routine. -/
structure CommonFactor where
  factor : String
  value : String
  count : ℕ
  percentage : Option ℚ
deriving DecidableEq

/-- The Borough common factors built from the borough tallies over the
high-risk subgroup (highRiskTotal is highRiskBuildings.length). -/
def boroughCommonFactors (boroughCounts : List (String × ℕ))
    (highRiskTotal : ℕ) : List CommonFactor :=
  boroughCounts.map
    (fun p => ⟨"Borough", p.1, p.2, pctOfCount p.2 highRiskTotal⟩)

/-- parseFloat(percentage) > threshold; parseFloat("NaN") compares
false. -/
def pctGT (p : Option ℚ) (threshold : ℚ) : Bool :=
  match p with
  | some x => decide (x > threshold)
  | none => false

/-- A geographic_concentration finding (location, its percentage field and
count carried as supporting data). -/
structure GeoPattern where
  location : String
  percentage : Option ℚ
  count : ℕ
deriving DecidableEq

/-- The geographic concentration rule of detectRiskPatterns: a finding per
Borough factor whose percentage exceeds 40. -/
def detectGeographicConcentration (commonFactors : List CommonFactor) :
    List GeoPattern :=
  (commonFactors.filter
      (fun f => f.factor == "Borough" && pctGT f.percentage 40)).map
    (fun f => ⟨f.value, f.percentage, f.count⟩)

/-- The dominant violation type rule of detectViolationPatterns: the first
listed (top) type fires when its share of totalViolations (or, when that
is absent or zero, of the summed listed counts) exceeds 30 percent. -/
def detectDominantViolationType (topViolationTypes : List (String × ℕ))
    (statsTotalViolations : ℕ) : Option (String × ℕ × Option ℚ) :=
  match topViolationTypes with
  | [] => none
  | dominant :: _ =>
    let totalViolations :=
      if statsTotalViolations = 0 then
        (topViolationTypes.map Prod.snd).sum
      else statsTotalViolations
    let dominantPercentage := pctOfCount dominant.2 totalViolations
    if pctGT dominantPercentage 30 then
      some (dominant.1, dominant.2, dominantPercentage)
    else none

/-- One entry of buildingsWithMultipleViolations. -/
structure ViolBuilding where
  address : String
  borough : String
  violationCount : ℕ
deriving DecidableEq

/-- The group average violation count (real division; the guard in the
source ensures the group is nonempty before dividing). -/
def groupAvgViolations (group : List ViolBuilding) : ℚ :=
  ((group.map (fun b => (b.violationCount : ℚ))).sum) / (group.length : ℚ)

/-- The high_violation_count anomaly of detectViolationPatterns: fires
when some building of the multiple-violations group has a count above
twice the group average; carries the flagged count and the average. -/
def detectHighViolationCountAnomaly (group : List ViolBuilding) :
    Option (ℕ × ℚ) :=
  if group.isEmpty then none
  else
    let avgViolations := groupAvgViolations group
    let flagged := group.filter
      (fun b => decide ((b.violationCount : ℚ) > avgViolations * 2))
    if flagged.isEmpty then none else some (flagged.length, avgViolations)

theorem pctGT_pctOfCount (c total : ℕ) (t : ℚ) :
    pctGT (pctOfCount c total) t = true
    ↔ (total ≠ 0
        ∧ ((jsRound ((c : ℚ) / (total : ℚ) * 100 * 10) : ℚ)) > 10 * t) := by
  unfold pctGT pctOfCount
  by_cases h0 : total = 0
  · simp [h0]
  · simp only [h0, if_false]
    unfold jsFixed1
    constructor
    · intro h
      refine ⟨h0, ?_⟩
      have hlt := of_decide_eq_true h
      rw [gt_iff_lt, lt_div_iff₀ (by norm_num : (0:ℚ) < 10)] at hlt
      linarith
    · intro hpair
      apply decide_eq_true
      rw [gt_iff_lt, lt_div_iff₀ (by norm_num : (0:ℚ) < 10)]
      linarith [hpair.2]

/-- C8 counterexample: with 401 of 1002 high-risk buildings in Brooklyn,
Brooklyn accounts for more than 40 percent of the subgroup
(40.019... percent), yet no geographic concentration finding fires,
because the compared percentage is first rounded to one decimal place
(40.0) and 40.0 > 40 is false; so firing is not exactly at share > 40
percent. -/
theorem c8_counterexample_rounded_share :
    ((401 : ℚ) / 1002) * 100 > 40
    ∧ detectGeographicConcentration
        (boroughCommonFactors
          [("Brooklyn", 401), ("Queens", 301), ("Bronx", 300)] 1002) = [] := by
  have e1 : pctGT (pctOfCount 401 1002) 40 = false := by
    rw [Bool.eq_false_iff]
    intro h
    have hgt := ((pctGT_pctOfCount 401 1002 40).mp h).2
    push_cast at hgt
    rw [show jsRound ((401 : ℚ) / 1002 * 100 * 10) = 400 from by
      unfold jsRound; rw [Int.floor_eq_iff]; norm_num] at hgt
    norm_num at hgt
  have e2 : pctGT (pctOfCount 301 1002) 40 = false := by
    rw [Bool.eq_false_iff]
    intro h
    have hgt := ((pctGT_pctOfCount 301 1002 40).mp h).2
    push_cast at hgt
    rw [show jsRound ((301 : ℚ) / 1002 * 100 * 10) = 300 from by
      unfold jsRound; rw [Int.floor_eq_iff]; norm_num] at hgt
    norm_num at hgt
  have e3 : pctGT (pctOfCount 300 1002) 40 = false := by
    rw [Bool.eq_false_iff]
    intro h
    have hgt := ((pctGT_pctOfCount 300 1002 40).mp h).2
    push_cast at hgt
    rw [show jsRound ((300 : ℚ) / 1002 * 100 * 10) = 299 from by
      unfold jsRound; rw [Int.floor_eq_iff]; norm_num] at hgt
    norm_num at hgt
  constructor
  · norm_num
  · unfold detectGeographicConcentration boroughCommonFactors
    simp [List.filter_cons, e1, e2, e3]

/-- C8 (amended): each threshold rule fires exactly on the rounded
percentage: a percentage field passes a threshold t exactly when the group
total is nonzero and the share rounded to one decimal exceeds t; hence the
geographic concentration finding for a location fires exactly when that
location's rounded percentage of the high-risk subgroup exceeds 40; the
dominant-violation-type finding fires exactly when the top listed type's
rounded share (of violationStats.totalViolations when nonzero, else of
the summed listed counts) exceeds 30; and the high-violation-count
anomaly fires exactly when some building of the group exceeds twice the
group average (this rule is exact, as claimed). -/
theorem c8_threshold_rules_characterized :
    (∀ (c total : ℕ) (t : ℚ),
        pctGT (pctOfCount c total) t = true
        ↔ (total ≠ 0
            ∧ ((jsRound ((c : ℚ) / (total : ℚ) * 100 * 10) : ℚ)) > 10 * t))
    ∧ (∀ (counts : List (String × ℕ)) (total : ℕ) (loc : String) (c : ℕ),
        (⟨loc, pctOfCount c total, c⟩ : GeoPattern) ∈
            detectGeographicConcentration (boroughCommonFactors counts total)
        ↔ ((loc, c) ∈ counts ∧ pctGT (pctOfCount c total) 40 = true))
    ∧ (∀ (statsTotal : ℕ),
        detectDominantViolationType [] statsTotal = none)
    ∧ (∀ (hd : String × ℕ) (rest : List (String × ℕ)) (statsTotal : ℕ),
        (detectDominantViolationType (hd :: rest) statsTotal).isSome = true
        ↔ pctGT
            (pctOfCount hd.2
              (if statsTotal = 0 then
                ((hd :: rest).map Prod.snd).sum
              else statsTotal)) 30 = true)
    ∧ (∀ (group : List ViolBuilding),
        (detectHighViolationCountAnomaly group).isSome = true
        ↔ ∃ b ∈ group,
            (b.violationCount : ℚ) > groupAvgViolations group * 2) := by
  refine ⟨pctGT_pctOfCount, ?_, fun statsTotal => rfl, ?_, ?_⟩
  · intro counts total loc c
    unfold detectGeographicConcentration boroughCommonFactors
    constructor
    · intro hmem
      rw [List.mem_map] at hmem
      obtain ⟨f, hf, heq⟩ := hmem
      rw [List.mem_filter] at hf
      obtain ⟨hfm, hcond⟩ := hf
      rw [List.mem_map] at hfm
      obtain ⟨p, hp, hpf⟩ := hfm
      obtain ⟨p1, p2⟩ := p
      subst hpf
      simp only [Bool.and_eq_true, beq_iff_eq] at hcond
      rw [GeoPattern.mk.injEq] at heq
      obtain ⟨h1, h2, h3⟩ := heq
      simp only at h1 h3
      subst h1
      subst h3
      exact ⟨hp, hcond.2⟩
    · intro hpair
      rw [List.mem_map]
      refine ⟨⟨"Borough", loc, c, pctOfCount c total⟩, ?_, rfl⟩
      rw [List.mem_filter]
      constructor
      · rw [List.mem_map]
        exact ⟨(loc, c), hpair.1, rfl⟩
      · simp [hpair.2]
  · intro hd rest statsTotal
    unfold detectDominantViolationType
    by_cases hc : pctGT
        (pctOfCount hd.2
          (if statsTotal = 0 then ((hd :: rest).map Prod.snd).sum
           else statsTotal)) 30 = true
    · simp only [hc]
      simp
    · simp only [Bool.not_eq_true] at hc
      simp [hc]
  · intro group
    unfold detectHighViolationCountAnomaly
    by_cases hgr : group.isEmpty
    · rw [List.isEmpty_iff] at hgr
      subst hgr
      simp
    · rw [if_neg hgr]
      dsimp only
      by_cases hf : (group.filter
          (fun b => decide ((b.violationCount : ℚ)
            > groupAvgViolations group * 2))).isEmpty
      · rw [if_pos hf]
        simp only [Option.isSome_none, Bool.false_eq_true, false_iff]
        rw [List.isEmpty_iff, List.filter_eq_nil_iff] at hf
        rintro ⟨b, hb, hgt⟩
        exact hf b hb (by simpa using hgt)
      · rw [if_neg hf]
        simp only [Option.isSome_some, true_iff]
        rw [List.isEmpty_iff] at hf
        obtain ⟨b, hb⟩ := List.exists_mem_of_ne_nil _ hf
        rw [List.mem_filter] at hb
        exact ⟨b, hb.1, by simpa using hb.2⟩

/-! ## Narrative generator (ai-insight-generator, duplicated in
ai-analysis-service.js): generateNarrativeInsights and its output
parsers extractKeyFindings and extractExplanations. -/

/-- Characters of a list trimmed of whitespace at both ends. -/
def trimChars (l : List Char) : List Char :=
  ((l.dropWhile Char.isWhitespace).reverse.dropWhile Char.isWhitespace).reverse

/-- JS String.prototype.trim. -/
def jsTrim (s : String) : String := String.mk (trimChars s.toList)

/-- Index of the first occurrence of needle in hay, if any. -/
def findSubIdx (needle : List Char) : List Char → Option ℕ
  | [] => if needle.isEmpty then some 0 else none
  | c :: cs =>
    if charsStartWith needle (c :: cs) then some 0
    else (findSubIdx needle cs).map (fun i => i + 1)

/-- The lazy capture ([\s\S]*?) up to the first blank line or the end of
input: everything before the first "\n\n". -/
def takeUntilDoubleNewline : List Char → List Char
  | [] => []
  | '\n' :: '\n' :: _ => []
  | c :: cs => c :: takeUntilDoubleNewline cs

/-- Consume one or more digits followed by a dot (the \n\d+\. list-item
separator), returning the remainder on success. -/
def takeDigitsThenDot (l : List Char) : Option (List Char) :=
  let digits := l.takeWhile Char.isDigit
  if digits.isEmpty then none
  else
    match l.drop digits.length with
    | '.' :: rest => some rest
    | _ => none

/-- Split on the separators "\n-" and "\n<digits>." (the JS split regex of
extractKeyFindings); fuel-driven, with fuel at least the input length so
the fallback emission never fires. -/
def splitFindingsGo : ℕ → List Char → List Char → List (List Char)
  | 0, l, acc => [acc.reverse ++ l]
  | _ + 1, [], acc => [acc.reverse]
  | fuel + 1, '\n' :: rest, acc =>
    (match rest with
     | '-' :: rest2 => acc.reverse :: splitFindingsGo fuel rest2 []
     | _ =>
       match takeDigitsThenDot rest with
       | some rest2 => acc.reverse :: splitFindingsGo fuel rest2 []
       | none => splitFindingsGo fuel rest ('\n' :: acc))
  | fuel + 1, c :: rest, acc => splitFindingsGo fuel rest (c :: acc)

/-- Split a captured findings block into items. -/
def splitFindings (l : List Char) : List (List Char) :=
  splitFindingsGo (l.length + 1) l []

/-- The fallback heuristic marker test of extractKeyFindings
(case-sensitive includes, as in the source). -/
def isFindingSentence (s : String) : Bool :=
  jsIncludes s "significant" || jsIncludes s "notable"
    || jsIncludes s "important" || jsIncludes s "found that"

/-- Split into sentences on the regex /\.\s+/: a dot followed by one or
more whitespace characters separates sentences; fuel-driven. -/
def splitSentencesGo : ℕ → List Char → List Char → List (List Char)
  | 0, l, acc => [acc.reverse ++ l]
  | _ + 1, [], acc => [acc.reverse]
  | fuel + 1, '.' :: rest, acc =>
    (match rest with
     | c :: _ =>
       if c.isWhitespace then
         acc.reverse :: splitSentencesGo fuel (rest.dropWhile Char.isWhitespace) []
       else splitSentencesGo fuel rest ('.' :: acc)
     | [] => splitSentencesGo fuel [] ('.' :: acc))
  | fuel + 1, c :: rest, acc => splitSentencesGo fuel rest (c :: acc)

/-- extractKeyFindings(insights): take the block after a case-insensitive
"key findings" header (with optional colon) up to the first blank line and
split it into list items; without a header, fall back to sentences
containing marker words. -/
def extractKeyFindings (insights : String) : List String :=
  let chars := insights.toList
  match findSubIdx ("key findings".toList) (chars.map Char.toLower) with
  | some i =>
    let afterHeader := chars.drop (i + ("key findings".toList).length)
    let afterColon :=
      match afterHeader with
      | ':' :: rest => rest
      | l => l
    let captured := takeUntilDoubleNewline afterColon
    ((splitFindings captured).map (fun cs => String.mk (trimChars cs))).filter
      (fun s => s ≠ "")
  | none =>
    let sentences := (splitSentencesGo (chars.length + 1) chars []).map String.mk
    (sentences.filter isFindingSentence).map (fun s => jsTrim s ++ ".")

/-- The alternatives of the explanation-marker regex, in order. -/
def explanationMarkers : List String :=
  ["because", "due to", "explained by", "result of", "caused by"]

/-- Length of the first explanation marker matching the lowered prefix of
the given (original, lowered) character pairs. -/
def matchMarkerAt (pairs : List (Char × Char)) : Option ℕ :=
  match explanationMarkers.find?
      (fun m => charsStartWith m.toList (pairs.map Prod.snd)) with
  | some m => some m.toList.length
  | none => none

/-- Global scan of /(?:because|due to|explained by|result of|caused by)
([^.]+)/gi: at each match emit the trimmed marker-plus-capture text and
continue after it; fuel-driven. -/
def extractExplanationsGo : ℕ → List (Char × Char) → List String
  | 0, _ => []
  | _ + 1, [] => []
  | fuel + 1, p :: rest =>
    (match matchMarkerAt (p :: rest) with
     | some mlen =>
       let afterMarker := (p :: rest).drop mlen
       let captured := afterMarker.takeWhile (fun q => q.1 ≠ '.')
       if captured.isEmpty then extractExplanationsGo fuel rest
       else
         String.mk (trimChars
             (((p :: rest).take (mlen + captured.length)).map Prod.fst))
           :: extractExplanationsGo fuel (afterMarker.drop captured.length)
     | none => extractExplanationsGo fuel rest)

/-- extractExplanations(insights). -/
def extractExplanations (insights : String) : List String :=
  let pairs := insights.toList.zip (lowerChars insights)
  extractExplanationsGo (pairs.length + 1) pairs

/-- The narrate output object. -/
structure NarrativeInsights where
  summary : String
  keyFindings : List String
  explanations : List String
  confidence : ℚ
deriving DecidableEq

/-- The fixed payload of the catch branch of generateNarrativeInsights. -/
def fallbackNarrativeInsights : NarrativeInsights :=
  { summary := "Unable to generate insights due to an error."
    keyFindings := []
    explanations := []
    confidence := 0 }

/-- generateNarrativeInsights with the Completion Service call outcome as
an explicit input: error models every thrown failure (timeout, API error,
reply shape without a completion text, on which .trim() throws); ok s
models a call that returned the completion text s.  The catch branch
returns the fixed fallback; the success branch trims the text, runs the
extractors and attaches the constant confidence 0.85. -/
def generateNarrativeInsights (completionOutcome : Except String String) :
    NarrativeInsights :=
  match completionOutcome with
  | Except.error _ =>
    { summary := "Unable to generate insights due to an error."
      keyFindings := []
      explanations := []
      confidence := 0 }
  | Except.ok text =>
    let insights := jsTrim text
    { summary := insights
      keyFindings := extractKeyFindings insights
      explanations := extractExplanations insights
      confidence := 85 / 100 }

/-- C9 counterexample: an empty completion (the service succeeds but
returns the empty string) is not treated as a failure: narrate returns an
empty summary with the placeholder confidence 0.85, not the fixed fallback
payload with confidence 0 that the claim requires for empty
completions. -/
theorem c9_counterexample_empty_completion :
    generateNarrativeInsights (Except.ok "")
      = { summary := "", keyFindings := [], explanations := [],
          confidence := 85 / 100 }
    ∧ generateNarrativeInsights (Except.ok "") ≠ fallbackNarrativeInsights := by
  have h : generateNarrativeInsights (Except.ok "")
      = { summary := "", keyFindings := [], explanations := [],
          confidence := 85 / 100 } := by
    rfl
  refine ⟨h, ?_⟩
  rw [h]
  intro heq
  have hc := congrArg NarrativeInsights.confidence heq
  simp only [fallbackNarrativeInsights] at hc
  norm_num at hc

/-- C9 (amended): on every thrown Completion Service failure (timeout,
error, malformed reply) narrate returns exactly the fixed fallback payload
(apology summary, empty lists, confidence 0) and never propagates the
failure; a successful call always carries the fixed placeholder confidence
0.85, even when the returned completion text is empty (in which case the
summary is the empty string, not the apology). -/
theorem c9_narrative_fallback_and_constant_confidence :
    (∀ e : String,
        generateNarrativeInsights (Except.error e) = fallbackNarrativeInsights)
    ∧ (∀ s : String,
        (generateNarrativeInsights (Except.ok s)).confidence = 85 / 100)
    ∧ (generateNarrativeInsights (Except.ok "")).summary = "" :=
  ⟨fun _ => rfl, fun _ => rfl, rfl⟩
